import Mathlib

/-!
Verification development for the lifecycle orchestrator `Box` of the
sing-box fork (source file `box.go`).

The orchestrator is shallowly embedded: collaborator packages
(`inbound`, `outbound`, `route`, `proxyprovider`, `ruleprovider`,
`log`, `experimental`) are not part of the analysed source file, so
their constructors and lifecycle behaviours are parameters (an `Env`
record and behaviour fields on the component records), constrained
only where the specification fixes their interface.  Go map iteration
over the pre- and post-service maps has unspecified order, so every
function that ranges over those maps takes the iteration order as an
explicit permutation parameter.  Timestamps, loggers and the actual
log output are not modelled; the strings built for error wrapping are.
-/

set_option linter.unusedVariables false

namespace SingBox

/-- Errors as built by the sing exception helpers used in `box.go`:
leaf messages (`E.New` and friends), the sentinel `os.ErrClosed`,
`E.Cause` wrapping with a message prefix, and the join of two non-nil
errors performed by `E.Append`/`E.Errors`. -/
inductive Err where
  | msg : String → Err
  | errClosed : Err
  | cause : String → Err → Err
  | multi : Err → Err → Err
deriving DecidableEq, Repr

/-- Semantics of `E.Append(errs, e, wrap)` from sing/common/exceptions:
a nil incoming error leaves the accumulator unchanged; a non-nil error
is wrapped and joined onto the accumulator. -/
def eAppend (errs : Option Err) (e : Option Err) (wrap : Err → Err) : Option Err :=
  match e with
  | none => errs
  | some e =>
    match errs with
    | none => some (wrap e)
    | some a => some (Err.multi a (wrap e))

/-- Outcome of one collaborator `Close` call: either a returned error
value (possibly nil), or a Go panic carrying a message.  `common.Close`
on a value that implements no closer interface is `res none`. -/
inductive COut where
  | res : Option Err → COut
  | panics : String → COut
deriving DecidableEq, Repr

/-- A close outcome is clean when it returns a nil error. -/
def COut.clean : COut → Bool
  | .res none => true
  | _ => false

/-- An auxiliary service registered in the pre- or post-service map
(`adapter.Service`, optionally also `adapter.PreStarter`): its
behaviour at each lifecycle call.  `preStartB = none` means the
dynamic capability check `service.(adapter.PreStarter)` fails. -/
structure Service where
  preStartB : Option (Option Err)
  startB : Option Err
  closeB : COut
deriving DecidableEq, Repr

/-- A constructed inbound (`adapter.Inbound`): its immutable tag and
type strings and its lifecycle behaviour. -/
structure Inbound where
  tag : String
  typ : String
  startB : Option Err
  closeB : COut
deriving DecidableEq, Repr

/-- A constructed outbound (`adapter.Outbound`), optionally a
`PostStarter` (`postStartB = none` means the capability is absent). -/
structure Outbound where
  tag : String
  typ : String
  startB : Option Err
  postStartB : Option (Option Err)
  closeB : COut
deriving DecidableEq, Repr

/-- A constructed proxy provider (`adapter.ProxyProvider`) as held by
the Box at run time. -/
structure ProxyProvider where
  tag : String
  startB : Option Err
  closeB : COut
deriving DecidableEq, Repr

/-- A constructed rule provider (`adapter.RuleProvider`) as held by
the Box at run time. -/
structure RuleProvider where
  tag : String
  startB : Option Err
  closeB : COut
deriving DecidableEq, Repr

/-- The router (`adapter.Router`): only its lifecycle behaviour is
relevant to the orchestrator. -/
structure Router where
  startB : Option Err
  closeB : COut
deriving DecidableEq, Repr

/-- The log factory (`log.Factory`): only its close behaviour is
relevant to the orchestrator. -/
structure LogFactory where
  closeB : COut
deriving DecidableEq, Repr

/-- The `Box` struct of `box.go`.  `preServices` and `postServices`
are Go maps `map[string]adapter.Service`; they are modelled as
association lists recording insertion order, with every iteration over
them taking the (unspecified) Go map range order as a separate
permutation parameter.  The closed `done` channel is the boolean
`done`; `createdAt`, `logger` and `reloadChan` are not part of the
lifecycle state modelled here (the reload channel is modelled
separately below). -/
structure Box where
  router : Router
  inbounds : List Inbound
  outbounds : List Outbound
  proxyProviders : List ProxyProvider
  ruleProviders : List RuleProvider
  logFactory : LogFactory
  preServices : List (String × Service)
  postServices : List (String × Service)
  done : Bool
deriving DecidableEq, Repr

/-- Pair each element of a list with its index, starting at `k`
(the `for i, x := range` loop counter). -/
def idxFrom (k : Nat) : List α → List (Nat × α)
  | [] => []
  | a :: l => (k, a) :: idxFrom (k + 1) l

/-- Iterate a Go map (modelled as an insertion-ordered association
list) in the range order `π`: `π` lists positions into `l`.  For `π` a
permutation of `List.range l.length` this visits every entry exactly
once, which is the guarantee Go gives for `range` over a map. -/
def iterIdx (l : List α) (π : List Nat) : List (Nat × α) :=
  π.filterMap fun i => (l.get? i).map fun a => (i, a)

/-- Identity of one subsystem visited by `Box.Close`. -/
inductive Subsys where
  | postService : Nat → Subsys
  | ruleProvider : Nat → Subsys
  | proxyProvider : Nat → Subsys
  | inbound : Nat → Subsys
  | outbound : Nat → Subsys
  | router : Subsys
  | preService : Nat → Subsys
  | logFactory : Subsys
deriving DecidableEq, Repr

/-- The error-wrapping label used by `Box.Close` for inbound `i`:
`"close inbound/"` + type + `"["` + index + `"]"` (note: the index,
not the tag — box.go line 415). -/
def closeInboundLabel (typ : String) (i : Nat) : String :=
  "close inbound/" ++ typ ++ "[" ++ toString i ++ "]"

/-- The error-wrapping label used by `Box.Close` for outbound `i`:
again built from the index, not the tag (box.go line 421). -/
def closeOutboundLabel (typ : String) (i : Nat) : String :=
  "close outbound/" ++ typ ++ "[" ++ toString i ++ "]"

/-- The sequence of close calls `Box.Close` performs after winning the
`done` race, in source order: post-services (map range order `πpost`),
rule providers, proxy providers, inbounds, outbounds, router,
pre-services (map range order `πpre`), log factory.  Each item carries
its subsystem identity, the `E.Cause` wrap label, and the component
close behaviour. -/
def Box.closeItems (s : Box) (πpost πpre : List Nat) : List (Subsys × String × COut) :=
  (iterIdx s.postServices πpost).map
      (fun p => (Subsys.postService p.1, "close " ++ p.2.1, p.2.2.closeB))
    ++ (idxFrom 0 s.ruleProviders).map
      (fun p => (Subsys.ruleProvider p.1, "close ruleprovider " ++ p.2.tag, p.2.closeB))
    ++ (idxFrom 0 s.proxyProviders).map
      (fun p => (Subsys.proxyProvider p.1, "close proxyprovider " ++ p.2.tag, p.2.closeB))
    ++ (idxFrom 0 s.inbounds).map
      (fun p => (Subsys.inbound p.1, closeInboundLabel p.2.typ p.1, p.2.closeB))
    ++ (idxFrom 0 s.outbounds).map
      (fun p => (Subsys.outbound p.1, closeOutboundLabel p.2.typ p.1, p.2.closeB))
    ++ [(Subsys.router, "close router", s.router.closeB)]
    ++ (iterIdx s.preServices πpre).map
      (fun p => (Subsys.preService p.1, "close " ++ p.2.1, p.2.2.closeB))
    ++ [(Subsys.logFactory, "close log factory", s.logFactory.closeB)]

/-- Result of running a sequence of close calls: either every call
returned (aggregate error and visited trace), or some call panicked
(the panic propagates out of `Box.Close`, truncating the traversal). -/
inductive SeqRes where
  | ret : Option Err → List (Subsys × String) → SeqRes
  | panicked : String → List (Subsys × String) → SeqRes
deriving DecidableEq, Repr

/-- Fold a sequence of close calls in order, accumulating errors with
`eAppend` exactly as the loops of `Box.Close` do, and stopping only if
a component close panics. -/
def closeSeq (errs : Option Err) : List (Subsys × String × COut) → SeqRes
  | [] => .ret errs []
  | (sub, label, b) :: rest =>
    match b with
    | .panics v => .panicked v [(sub, label)]
    | .res e =>
      match closeSeq (eAppend errs e (Err.cause label)) rest with
      | .ret errs t => .ret errs ((sub, label) :: t)
      | .panicked v t => .panicked v ((sub, label) :: t)

/-- Result of a call of `Box.Close`: the returned error (possibly
nil, and `os.ErrClosed` on a lost `done` race), the Box state after
the call, and the trace of subsystem closes performed; or a
propagated panic from a component close. -/
inductive CloseOutcome where
  | ret : Option Err → Box → List (Subsys × String) → CloseOutcome
  | panicked : String → Box → List (Subsys × String) → CloseOutcome
deriving DecidableEq, Repr

/-- The Box the outcome left behind. -/
def CloseOutcome.box : CloseOutcome → Box
  | .ret _ s _ => s
  | .panicked _ s _ => s

/-- The trace of subsystem closes the outcome performed. -/
def CloseOutcome.trace : CloseOutcome → List (Subsys × String)
  | .ret _ _ t => t
  | .panicked _ _ t => t

/-- `Box.Close` (box.go lines 388-445): a non-blocking test of the
`done` channel returns `os.ErrClosed` if it is already closed and
otherwise closes it and tears every subsystem down in the fixed
order of `Box.closeItems`, folding every failure into one aggregate
with `E.Append`. -/
def Box.Close (s : Box) (πpost πpre : List Nat) : CloseOutcome :=
  if s.done then
    .ret (some Err.errClosed) s []
  else
    let s' := { s with done := true }
    match closeSeq none (s.closeItems πpost πpre) with
    | .ret e t => .ret e s' t
    | .panicked v t => .panicked v s' t

/-- True when every subsystem of the Box closes with a nil error. -/
def Box.allCloseClean (s : Box) : Bool :=
  s.postServices.all (fun p => p.2.closeB.clean)
    && s.ruleProviders.all (fun p => p.closeB.clean)
    && s.proxyProviders.all (fun p => p.closeB.clean)
    && s.inbounds.all (fun p => p.closeB.clean)
    && s.outbounds.all (fun p => p.closeB.clean)
    && s.router.closeB.clean
    && s.preServices.all (fun p => p.2.closeB.clean)
    && s.logFactory.closeB.clean

/-- A close outcome that returns (does not panic). -/
def COut.returns : COut → Bool
  | .panics _ => false
  | _ => true

/-- True when no subsystem close panics, i.e. every close call
returns (the situation `Box.Close` itself assumes: it installs no
recover). -/
def Box.noClosePanics (s : Box) : Bool :=
  s.postServices.all (fun p => p.2.closeB.returns)
    && s.ruleProviders.all (fun p => p.closeB.returns)
    && s.proxyProviders.all (fun p => p.closeB.returns)
    && s.inbounds.all (fun p => p.closeB.returns)
    && s.outbounds.all (fun p => p.closeB.returns)
    && s.router.closeB.returns
    && s.preServices.all (fun p => p.2.closeB.returns)
    && s.logFactory.closeB.returns

/-- Return the first error produced by applying `f` to the elements
of `l` in order, or `none` when every call succeeds — the shape of
every start loop in `box.go`. -/
def firstErr (f : α → Option Err) : List α → Option Err
  | [] => none
  | a :: l =>
    match f a with
    | some e => some e
    | none => firstErr f l

/-- The identity string `Box.start` computes for inbound `i` before
starting it (box.go lines 352-358): the stored tag when non-empty,
otherwise the stringified index — recomputed at start time, not read
from a tag assigned during construction. -/
def startInboundIdent (tag : String) (i : Nat) : String :=
  if tag = "" then toString i else tag

/-- The error-wrapping label of the inbound start loop
(box.go line 362). -/
def startInboundLabel (typ tag : String) (i : Nat) : String :=
  "initialize inbound/" ++ typ ++ "[" ++ startInboundIdent tag i ++ "]"

/-- Modelled from the spec: `Box.startOutbounds` lives in a source
file that is not part of the analysed source (`box_outbound.go`); per
the spec (section 4.2) it starts every outbound, wrapping a failure
with the failing outbound identity. -/
def Box.startOutbounds (s : Box) : Option Err :=
  firstErr
    (fun p =>
      (p.2.startB).map
        (Err.cause ("start outbound/" ++ p.2.typ ++ "[" ++ p.2.tag ++ "]")))
    (idxFrom 0 s.outbounds)

/-- `Box.preStart` (lower case, box.go lines 309-324): run the
`PreStart` capability of every pre-service in map range order `πpre`,
then start the outbounds, then the router (whose error is returned
unwrapped). -/
def Box.preStart (s : Box) (πpre : List Nat) : Option Err :=
  match
    firstErr
      (fun p =>
        match p.2.2.preStartB with
        | none => none
        | some r => r.map (Err.cause ("pre-starting " ++ p.2.1)))
      (iterIdx s.preServices πpre)
  with
  | some e => some e
  | none =>
    match s.startOutbounds with
    | some e => some e
    | none => s.router.startB

/-- `Box.start` (lower case, box.go lines 326-366): `preStart`, then
the full `Start` of every pre-service (a second, independent map
range order `πpre2`), then proxy providers, rule providers and
inbounds in list order, each failure wrapped with the component
identity. -/
def Box.start (s : Box) (πpre πpre2 : List Nat) : Option Err :=
  match s.preStart πpre with
  | some e => some e
  | none =>
    match
      firstErr (fun p => (p.2.2.startB).map (Err.cause ("start " ++ p.2.1)))
        (iterIdx s.preServices πpre2)
    with
    | some e => some e
    | none =>
      match
        firstErr
          (fun p => (p.startB).map (Err.cause ("start proxyprovider " ++ p.tag)))
          s.proxyProviders
      with
      | some e => some e
      | none =>
        match
          firstErr
            (fun p => (p.startB).map (Err.cause ("start ruleprovider " ++ p.tag)))
            s.ruleProviders
        with
        | some e => some e
        | none =>
          firstErr
            (fun p => (p.2.startB).map (Err.cause (startInboundLabel p.2.typ p.2.tag p.1)))
            (idxFrom 0 s.inbounds)

/-- `Box.postStart` (box.go lines 368-386): start every post-service
in map range order, then run the `PostStart` capability of every
outbound.  The outbound loop is a `range` over a slice, so its error
label uses the index. -/
def Box.postStart (s : Box) (πpost : List Nat) : Option Err :=
  match
    firstErr (fun p => (p.2.2.startB).map (Err.cause ("start " ++ p.2.1)))
      (iterIdx s.postServices πpost)
  with
  | some e => some e
  | none =>
    firstErr
      (fun p =>
        match p.2.postStartB with
        | none => none
        | some r => r.map (Err.cause ("post-start " ++ toString p.1)))
      (idxFrom 0 s.outbounds)

/-- Result of the exported `PreStart`/`Start` calls: success, a
returned error, or a propagated panic.  In the panic case `logged`
records the errors written by `log.Error` in the recover handler and
`msg` the new panic message. -/
inductive RunResult where
  | ok : Box → RunResult
  | fail : Err → Box → RunResult
  | panicked : (logged : List Err) → (msg : String) → Box → RunResult
deriving DecidableEq, Repr

/-- `Box.PreStart` (box.go lines 271-288): on an internal `preStart`
failure, call `Close` on the partially started Box (its error result
is discarded) and return the original error; a panic raised during
that rollback close is recovered, the original error is logged as
`origin error`, and a new panic `panic on early close: v` is raised. -/
def Box.PreStart (s : Box) (πpre πcpost πcpre : List Nat) : RunResult :=
  match s.preStart πpre with
  | none => .ok s
  | some err =>
    match s.Close πcpost πcpre with
    | .ret _ s' _ => .fail err s'
    | .panicked v s' _ =>
      .panicked [Err.cause "origin error" err] ("panic on early close: " ++ v) s'

/-- `Box.Start` (box.go lines 290-307): same rollback and
panic-recovery wrapper as `Box.PreStart`, around `start`. -/
def Box.Start (s : Box) (πpre πpre2 πcpost πcpre : List Nat) : RunResult :=
  match s.start πpre πpre2 with
  | none => .ok s
  | some err =>
    match s.Close πcpost πcpre with
    | .ret _ s' _ => .fail err s'
    | .panicked v s' _ =>
      .panicked [Err.cause "origin error" err] ("panic on early close: " ++ v) s'

/-- A Go buffered channel of `struct` units: only the capacity and
the number of pending items matter. -/
structure GoChan where
  cap : Nat
  pending : Nat
deriving DecidableEq, Repr

/-- The reload channel as created by `New` (box.go line 59):
`make(chan struct, 1)` — capacity one, initially empty. -/
def newReloadChan : GoChan := { cap := 1, pending := 0 }

/-- Modelled from the spec: the producers (router, providers) post
into the reload channel with a non-blocking `select` send; when the
buffer is full the send is dropped.  Returns the channel after the
attempt and whether the item was accepted.  The function is total:
the producer never blocks. -/
def GoChan.trySend (c : GoChan) : GoChan × Bool :=
  if c.pending < c.cap then ({ c with pending := c.pending + 1 }, true)
  else (c, false)

/-- A receive on the channel: consumes one pending item when there is
one. -/
def GoChan.tryRecv (c : GoChan) : GoChan × Bool :=
  match c.pending with
  | 0 => (c, false)
  | n + 1 => ({ c with pending := n }, true)

/-- One interaction with the reload channel. -/
inductive ChanOp where
  | post : ChanOp
  | recv : ChanOp
deriving DecidableEq, Repr

/-- Run a sequence of posts and receives against a channel. -/
def GoChan.run (c : GoChan) : List ChanOp → GoChan
  | [] => c
  | .post :: ops => ((c.trySend).1).run ops
  | .recv :: ops => ((c.tryRecv).1).run ops

/-- A routing rule (`option.Rule`): opaque to the orchestrator. -/
structure RouteRule where
  id : Nat
deriving DecidableEq, Repr

/-- A DNS rule (`option.DNSRule`): opaque to the orchestrator. -/
structure DNSRule where
  id : Nat
deriving DecidableEq, Repr

/-- The route options section; only the rule list is touched by the
orchestrator.  A Go nil slice and an empty slice both have length
zero, so the source condition `Rules != nil and len(Rules) > 0` is
`rules` being non-empty. -/
structure RouteOptions where
  rules : List RouteRule
deriving DecidableEq, Repr

/-- The DNS options section; only the rule list is touched. -/
structure DNSOptions where
  rules : List DNSRule
deriving DecidableEq, Repr

/-- One inbound configuration entry: the optional tag (empty string
when absent) and the protocol type. -/
structure InboundOptions where
  tag : String
  typ : String
deriving DecidableEq, Repr

/-- One outbound configuration entry. -/
structure OutboundOptions where
  tag : String
  typ : String
deriving DecidableEq, Repr

/-- One rule provider configuration entry. -/
structure RuleProviderOptions where
  tag : String
deriving DecidableEq, Repr

/-- One proxy provider configuration entry. -/
structure ProxyProviderOptions where
  tag : String
deriving DecidableEq, Repr

/-- The decoded configuration consumed by `New`.  The experimental
sections are reduced to what the orchestrator reads from them:
presence of the clash API section, of a platform interface, and of
the v2ray API section with its listen address.  The field name
`rulProviders` follows the source option field `RulProviders`. -/
structure Options where
  route : RouteOptions
  dns : DNSOptions
  inbounds : List InboundOptions
  outbounds : List OutboundOptions
  proxyProviders : List ProxyProviderOptions
  rulProviders : List RuleProviderOptions
  hasClashAPI : Bool
  hasPlatformInterface : Bool
  hasV2RayAPI : Bool
  v2rayAPIListen : String
deriving DecidableEq, Repr

/-- `needClashAPI` (box.go lines 64-66): the clash section is present
or a platform interface is supplied. -/
def needClashAPI (o : Options) : Bool :=
  o.hasClashAPI || o.hasPlatformInterface

/-- `needV2RayAPI` (box.go lines 67-69): the v2ray section is present
with a non-empty listen address. -/
def needV2RayAPI (o : Options) : Bool :=
  o.hasV2RayAPI && !(o.v2rayAPIListen == "")

/-- The tag-defaulting computed in every construction loop of `New`:
the configured tag when non-empty, else the stringified zero-based
index. -/
def defaultTag (t : String) (i : Nat) : String :=
  if t = "" then toString i else t

/-- A constructed rule provider together with its construction-time
`FormatRule` behaviour (called once by `New`). -/
structure RuleProviderImpl where
  rp : RuleProvider
  formatRule : Option (List DNSRule) → Option (List RouteRule) →
    Except Err (List DNSRule × List RouteRule)

/-- A constructed proxy provider together with its construction-time
`StartGetOutbounds` result (executed once by `New`). -/
structure ProxyProviderImpl where
  pp : ProxyProvider
  startGetOutbounds : Except Err (List OutboundOptions)

/-- The collaborator packages `New` calls into.  They are outside the
analysed source file, so their behaviour is a parameter: each
constructor is a function of exactly the data `box.go` passes it
(contexts, loggers and routers carry no information the orchestrator
branches on, so they are dropped from the modelled signatures).
`routerNeedsDefault` abstracts, following the spec, whether
`Router.Initialize` finds no direct outbound otherwise reachable and
therefore invokes the default-outbound factory. -/
structure Env where
  logFactoryErr : Option Err
  logFactory : LogFactory
  newRuleProvider : String → RuleProviderOptions → Except Err RuleProviderImpl
  newRouter : RouteOptions → DNSOptions → Except Err Router
  newInbound : InboundOptions → Except Err Inbound
  newOutbound : String → OutboundOptions → Except Err Outbound
  newProxyProvider : String → ProxyProviderOptions → Except Err ProxyProviderImpl
  routerNeedsDefault : Bool
  initializeErr : Option Err
  platformInitializeErr : Option Err
  newClashServer : Except Err Service
  newV2RayServer : Except Err Service

/-- Modelled from the spec: interface facts about the collaborator
constructors (spec section 3 and section 6) used where a claim speaks
about the tag or type a constructed component reports.  An inbound
keeps its configured tag — the `in.Tag() == ""` branch of `Box.start`
is the source's own witness that inbound construction does not
default the tag — and an outbound reports the configured tag when one
is present and otherwise the tag argument it was constructed under
(which makes the static outbounds carry their defaulted tag and the
synthetic direct outbound carry the tag `default`, as the spec
states). -/
structure Env.Conformant (env : Env) : Prop where
  outbound_tag : ∀ tag o out, env.newOutbound tag o = .ok out →
    out.tag = (if o.tag = "" then tag else o.tag) ∧ out.typ = o.typ
  inbound_tag : ∀ o inb, env.newInbound o = .ok inb →
    inb.tag = o.tag ∧ inb.typ = o.typ
  ruleProvider_tag : ∀ tag o impl, env.newRuleProvider tag o = .ok impl →
    impl.rp.tag = tag
  proxyProvider_tag : ∀ tag o impl, env.newProxyProvider tag o = .ok impl →
    impl.pp.tag = tag

/-- Observable events of a run of `New`: logger creations, the
`FormatRule` call made for each rule provider (with the arguments it
receives), the `SetRouter` calls, the outbound list passed to
`Router.Initialize`, and an invocation of the default-outbound
factory. -/
inductive NewEv where
  | newLogger : String → NewEv
  | formatRuleCall : Nat → Option (List DNSRule) → Option (List RouteRule) → NewEv
  | setRouter : String → NewEv
  | initializeCall : List Outbound → NewEv
  | defaultFactoryCall : NewEv
deriving DecidableEq, Repr

/-- The rule provider loop of `New` (box.go lines 88-123), with `i`
the loop index.  The tag is defaulted (and written back into the
options), the provider is constructed, and `FormatRule` is always
called — each rule list is passed as a present argument only when it
is non-empty, and is replaced by the rewritten list only when it was
non-empty. -/
def buildRuleProvidersAux (env : Env) (i : Nat) (ro : RouteOptions) (dns : DNSOptions) :
    List RuleProviderOptions →
      Except Err (List RuleProvider × RouteOptions × DNSOptions × List NewEv)
  | [] => .ok ([], ro, dns, [])
  | o :: rest =>
    let tag := defaultTag o.tag i
    match env.newRuleProvider tag { o with tag := tag } with
    | .error e => .error (Err.cause ("parse ruleprovider[" ++ toString i ++ "]") e)
    | .ok impl =>
      let routeArg := if ro.rules = [] then none else some ro.rules
      let dnsArg := if dns.rules = [] then none else some dns.rules
      match impl.formatRule dnsArg routeArg with
      | .error e => .error (Err.cause ("ruleprovider[" ++ toString i ++ "] format rule") e)
      | .ok (newDNS, newRoute) =>
        let ro' := if ro.rules = [] then ro else { ro with rules := newRoute }
        let dns' := if dns.rules = [] then dns else { dns with rules := newDNS }
        match buildRuleProvidersAux env (i + 1) ro' dns' rest with
        | .error e => .error e
        | .ok (rps, ro2, dns2, tr) =>
          .ok (impl.rp :: rps, ro2, dns2,
            NewEv.newLogger ("ruleprovider[" ++ tag ++ "]")
              :: NewEv.formatRuleCall i dnsArg routeArg :: tr)

/-- The inbound loop of `New` (box.go lines 144-163): the defaulted
tag names only the logger; the options are passed to the inbound
constructor with their original tag. -/
def buildInboundsAux (env : Env) (i : Nat) :
    List InboundOptions → Except Err (List Inbound × List NewEv)
  | [] => .ok ([], [])
  | o :: rest =>
    let tag := defaultTag o.tag i
    match env.newInbound o with
    | .error e => .error (Err.cause ("parse inbound[" ++ toString i ++ "]") e)
    | .ok inb =>
      match buildInboundsAux env (i + 1) rest with
      | .error e => .error e
      | .ok (l, tr) =>
        .ok (inb :: l, NewEv.newLogger ("inbound/" ++ o.typ ++ "[" ++ tag ++ "]") :: tr)

/-- The static outbound loop of `New` (box.go lines 164-182): the
defaulted tag is passed to the outbound constructor as its tag
argument (the options keep their original tag). -/
def buildOutboundsAux (env : Env) (i : Nat) :
    List OutboundOptions → Except Err (List Outbound × List NewEv)
  | [] => .ok ([], [])
  | o :: rest =>
    let tag := defaultTag o.tag i
    match env.newOutbound tag o with
    | .error e => .error (Err.cause ("parse outbound[" ++ toString i ++ "]") e)
    | .ok out =>
      match buildOutboundsAux env (i + 1) rest with
      | .error e => .error e
      | .ok (l, tr) =>
        .ok (out :: l, NewEv.newLogger ("outbound/" ++ o.typ ++ "[" ++ tag ++ "]") :: tr)

/-- The inner loop of the proxy provider stage (box.go lines
203-216): each outbound definition returned by `StartGetOutbounds` is
constructed under its own tag, failures wrapped with the provider tag
and the definition index `j`. -/
def buildProviderOutboundsAux (env : Env) (ppTag : String) (j : Nat) :
    List OutboundOptions → Except Err (List Outbound × List NewEv)
  | [] => .ok ([], [])
  | o :: rest =>
    let tag := o.tag
    match env.newOutbound tag o with
    | .error e =>
      .error (Err.cause ("parse proxyprovider [" ++ ppTag ++ "] outbound[" ++ toString j ++ "]") e)
    | .ok out =>
      match buildProviderOutboundsAux env ppTag (j + 1) rest with
      | .error e => .error e
      | .ok (l, tr) =>
        .ok (out :: l, NewEv.newLogger ("outbound/" ++ o.typ ++ "[" ++ tag ++ "]") :: tr)

/-- The proxy provider loop of `New` (box.go lines 183-219): default
the tag (written back into the options), construct the provider, run
`StartGetOutbounds` once, and append the constructed outbounds of
each provider in order. -/
def buildProxyProvidersAux (env : Env) (i : Nat) :
    List ProxyProviderOptions →
      Except Err (List ProxyProvider × List Outbound × List NewEv)
  | [] => .ok ([], [], [])
  | o :: rest =>
    let tag := defaultTag o.tag i
    match env.newProxyProvider tag { o with tag := tag } with
    | .error e => .error (Err.cause ("parse proxyprovider[" ++ toString i ++ "]") e)
    | .ok impl =>
      match impl.startGetOutbounds with
      | .error e => .error (Err.cause ("get outbounds from proxyprovider[" ++ toString i ++ "]") e)
      | .ok oopts =>
        match buildProviderOutboundsAux env impl.pp.tag 0 oopts with
        | .error e => .error e
        | .ok (outs, tr1) =>
          match buildProxyProvidersAux env (i + 1) rest with
          | .error e => .error e
          | .ok (pps, outs2, tr2) =>
            .ok (impl.pp :: pps, outs ++ outs2,
              NewEv.newLogger ("proxyprovider[" ++ tag ++ "]") :: (tr1 ++ tr2))

/-- The fixed options of the synthetic direct outbound
(box.go line 221): type `direct`, tag `default`. -/
def directDefaultOptions : OutboundOptions :=
  { tag := "default", typ := "direct" }

/-- A value of this type either returns an outbound or panics — the
factory `New` hands to `Router.Initialize` has no error result in its
type. -/
inductive PanicOr (α : Type) where
  | ret : α → PanicOr α
  | panics : Err → PanicOr α
deriving DecidableEq, Repr

/-- The default-outbound factory closure of `New` (box.go lines
220-225): construct a direct outbound from the fixed options and
`common.Must` the error — a construction failure panics with the
error instead of returning it. -/
def defaultOutboundFactory (env : Env) : PanicOr Outbound :=
  match env.newOutbound "direct" directDefaultOptions with
  | .ok out => .ret out
  | .error e => .panics e

/-- Result of `New`: a constructed Box with the event trace, a
returned error, or a panic escaping from `common.Must` inside the
default-outbound factory. -/
inductive NewResult where
  | ok : Box → List NewEv → NewResult
  | fail : Err → NewResult
  | panicked : Err → NewResult
deriving DecidableEq, Repr

/-- `New` (box.go lines 51-269): log factory, rule providers (with
rule rewriting), router, `SetRouter` on each rule provider, inbounds,
static outbounds, proxy providers with their derived outbounds,
`Router.Initialize` with the assembled lists and the default-outbound
factory (modelled from the spec: the factory is invoked during
`Initialize`, at most once, only when the router finds no direct
outbound otherwise reachable), platform initialization, and the
conditional clash and v2ray API pre-services.  The post-service map
is created empty and never populated in this file. -/
def New (env : Env) (o : Options) : NewResult :=
  match env.logFactoryErr with
  | some e => .fail (Err.cause "create log factory" e)
  | none =>
    match buildRuleProvidersAux env 0 o.route o.dns o.rulProviders with
    | .error e => .fail e
    | .ok (rps, ro, dns, tr1) =>
      match env.newRouter ro dns with
      | .error e => .fail (Err.cause "parse route options" e)
      | .ok router =>
        let tr2 := rps.map (fun rp => NewEv.setRouter rp.tag)
        match buildInboundsAux env 0 o.inbounds with
        | .error e => .fail e
        | .ok (ins, tr3) =>
          match buildOutboundsAux env 0 o.outbounds with
          | .error e => .fail e
          | .ok (souts, tr4) =>
            match buildProxyProvidersAux env 0 o.proxyProviders with
            | .error e => .fail e
            | .ok (pps, pouts, tr5) =>
              let outs := souts ++ pouts
              match
                (if env.routerNeedsDefault then
                  match defaultOutboundFactory env with
                  | .panics e => none
                  | .ret dout => some (outs ++ [dout], [NewEv.defaultFactoryCall])
                else some (outs, []))
              with
              | none =>
                .panicked
                  (match defaultOutboundFactory env with
                    | .panics e => e
                    | .ret _ => Err.msg "unreachable")
              | some (outs2, trD) =>
                match env.initializeErr with
                | some e => .fail e
                | none =>
                  match
                    (if o.hasPlatformInterface then env.platformInitializeErr else none)
                  with
                  | some e => .fail (Err.cause "initialize platform interface" e)
                  | none =>
                    match
                      (if needClashAPI o then
                        match env.newClashServer with
                        | .error e => .error (Err.cause "create clash api server" e)
                        | .ok cs => .ok [("clash api", cs)]
                      else .ok [] : Except Err (List (String × Service)))
                    with
                    | .error e => .fail e
                    | .ok pre1 =>
                      match
                        (if needV2RayAPI o then
                          match env.newV2RayServer with
                          | .error e => .error (Err.cause "create v2ray api server" e)
                          | .ok vs => .ok (pre1 ++ [("v2ray api", vs)])
                        else .ok pre1 : Except Err (List (String × Service)))
                      with
                      | .error e => .fail e
                      | .ok pre2 =>
                        .ok
                          { router := router
                            inbounds := ins
                            outbounds := outs2
                            proxyProviders := pps
                            ruleProviders := rps
                            logFactory := env.logFactory
                            preServices := pre2
                            postServices := []
                            done := false }
                          (tr1 ++ tr2 ++ tr3 ++ tr4 ++ tr5
                            ++ [NewEv.initializeCall outs] ++ trD)

/-- Collect the results of a fallible map, failing when any element
fails. -/
def optTraverse (f : α → Option β) : List α → Option (List β)
  | [] => some []
  | a :: l =>
    match f a with
    | none => none
    | some b => (optTraverse f l).map (fun bl => b :: bl)

/-- Reference definition following the words of the spec (section 4.1
steps 8 and 9): the static outbounds constructed in index order under
their defaulted tags. -/
def specStaticOutbounds (env : Env) (l : List OutboundOptions) : Option (List Outbound) :=
  optTraverse (fun p => (env.newOutbound (defaultTag p.2.tag p.1) p.2).toOption) (idxFrom 0 l)

/-- Reference definition following the words of the spec (section 4.1
step 9): for each proxy provider in index order, the outbound
definitions returned by its `StartGetOutbounds`, each constructed
under its own tag, concatenated in order. -/
def specProviderOutbounds (env : Env) (l : List ProxyProviderOptions) : Option (List Outbound) :=
  (optTraverse
      (fun p =>
        match env.newProxyProvider (defaultTag p.2.tag p.1)
            { p.2 with tag := defaultTag p.2.tag p.1 } with
        | .error _ => none
        | .ok impl =>
          match impl.startGetOutbounds with
          | .error _ => none
          | .ok oopts => optTraverse (fun o => (env.newOutbound o.tag o).toOption) oopts)
      (idxFrom 0 l)).map List.flatten

/-- Reference definition following the words of the spec: the
outbound list handed to `Router.Initialize` is the static outbounds
followed by every provider-supplied outbound. -/
def specInitializeOutbounds (env : Env) (o : Options) : Option (List Outbound) :=
  match specStaticOutbounds env o.outbounds, specProviderOutbounds env o.proxyProviders with
  | some a, some b => some (a ++ b)
  | _, _ => none

/-- Count of `FormatRule` calls in a `New` trace. -/
def formatRuleCalls (tr : List NewEv) : Nat :=
  tr.countP fun ev => match ev with | NewEv.formatRuleCall _ _ _ => true | _ => false

/-- Count of default-outbound factory invocations in a `New` trace. -/
def factoryCalls (tr : List NewEv) : Nat :=
  tr.countP fun ev => match ev with | NewEv.defaultFactoryCall => true | _ => false

/-- The receive-only endpoint `Box.ReloadChan` hands to the caller
(box.go lines 451-453): in Go this is the `<-chan` view of the same
channel, which types away the send capability; here it is a wrapper
on which only `receive` is defined. -/
structure RecvOnlyChan where
  ch : GoChan
deriving DecidableEq, Repr

/-- `Box.ReloadChan`: expose the reload channel read-only. -/
def ReloadChan (c : GoChan) : RecvOnlyChan := { ch := c }

/-- The only operation available on the exposed endpoint. -/
def RecvOnlyChan.receive (r : RecvOnlyChan) : RecvOnlyChan × Bool :=
  let p := r.ch.tryRecv
  ({ ch := p.1 }, p.2)

/-- The canonical enumeration of the subsystems of a Box, in the
fixed teardown category order, each category in index order. -/
def Box.subsysAll (s : Box) : List Subsys :=
  (List.range s.postServices.length).map Subsys.postService
    ++ (List.range s.ruleProviders.length).map Subsys.ruleProvider
    ++ (List.range s.proxyProviders.length).map Subsys.proxyProvider
    ++ (List.range s.inbounds.length).map Subsys.inbound
    ++ (List.range s.outbounds.length).map Subsys.outbound
    ++ [Subsys.router]
    ++ (List.range s.preServices.length).map Subsys.preService
    ++ [Subsys.logFactory]

/-- The trace of a successful `New` run (empty otherwise). -/
def NewResult.traceOf : NewResult → List NewEv
  | .ok _ tr => tr
  | _ => []

/-- The outbound list recorded by an `initializeCall` event. -/
def NewEv.initArg : NewEv → Option (List Outbound)
  | .initializeCall l => some l
  | _ => none

/-- A service that succeeds at every lifecycle call. -/
def okService : Service :=
  { preStartB := some none, startB := none, closeB := .res none }

/-- Example collaborator environment: every constructor succeeds, a
constructed component reports the tag it is constructed under (an
outbound preferring its configured tag), `FormatRule` returns the
lists it is given, every proxy provider returns two outbound
definitions derived from its tag, and the router requests the
default outbound. -/
def cenvA : Env :=
  { logFactoryErr := none
    logFactory := { closeB := .res none }
    newRuleProvider := fun tag o =>
      .ok { rp := { tag := tag, startB := none, closeB := .res none }
            formatRule := fun d r => .ok (d.getD [], r.getD []) }
    newRouter := fun ro dns => .ok { startB := none, closeB := .res none }
    newInbound := fun o =>
      .ok { tag := o.tag, typ := o.typ, startB := none, closeB := .res none }
    newOutbound := fun tag o =>
      .ok { tag := if o.tag = "" then tag else o.tag, typ := o.typ, startB := none,
            postStartB := none, closeB := .res none }
    newProxyProvider := fun tag o =>
      .ok { pp := { tag := tag, startB := none, closeB := .res none }
            startGetOutbounds :=
              .ok [{ tag := "po-" ++ tag ++ "-0", typ := "t" },
                   { tag := "po-" ++ tag ++ "-1", typ := "t" }] }
    routerNeedsDefault := true
    initializeErr := none
    platformInitializeErr := none
    newClashServer := .ok okService
    newV2RayServer := .ok okService }

/-- Example collaborator environment in which constructing any
direct-typed outbound fails. -/
def cenvB : Env :=
  { cenvA with newOutbound := fun tag o =>
      if o.typ = "direct" then .error (Err.msg "boom") else cenvA.newOutbound tag o }

/-- Example configuration: one untagged inbound, one untagged static
outbound, two proxy providers (one untagged, one tagged), one
untagged rule provider, one route rule, clash API enabled. -/
def oA : Options :=
  { route := { rules := [{ id := 1 }] }
    dns := { rules := [] }
    inbounds := [{ tag := "", typ := "http" }]
    outbounds := [{ tag := "", typ := "direct" }]
    proxyProviders := [{ tag := "" }, { tag := "pB" }]
    rulProviders := [{ tag := "" }]
    hasClashAPI := true
    hasPlatformInterface := false
    hasV2RayAPI := false
    v2rayAPIListen := "" }

/-- Example configuration with one rule provider and no route or DNS
rules at all. -/
def oEmpty : Options :=
  { route := { rules := [] }
    dns := { rules := [] }
    inbounds := []
    outbounds := []
    proxyProviders := []
    rulProviders := [{ tag := "" }]
    hasClashAPI := false
    hasPlatformInterface := false
    hasV2RayAPI := false
    v2rayAPIListen := "" }

/-- Example Box used to instantiate the lifecycle theorems: one
component of every kind, all lifecycle calls succeeding. -/
def cbW1 : Box :=
  { router := { startB := none, closeB := .res none }
    inbounds := [{ tag := "in0", typ := "http", startB := none, closeB := .res none }]
    outbounds :=
      [{ tag := "out0", typ := "direct", startB := none, postStartB := some none,
         closeB := .res none }]
    proxyProviders := [{ tag := "pp0", startB := none, closeB := .res none }]
    ruleProviders := [{ tag := "rp0", startB := none, closeB := .res none }]
    logFactory := { closeB := .res none }
    preServices := [("clash api", okService)]
    postServices := [("post0", okService)]
    done := false }

/-- Example Box whose router fails to start and that closes
cleanly. -/
def cbW3 : Box :=
  { cbW1 with router := { startB := some (Err.msg "rs"), closeB := .res none } }

/-- Example Box whose router fails to start and whose log factory
panics on close. -/
def cbW3p : Box :=
  { cbW3 with logFactory := { closeB := .panics "pv" } }

/-- Example Box with two post-services, for exhibiting the possible
map iteration orders of `Close`. -/
def cb6 : Box :=
  { cbW1 with postServices := [("a", okService), ("b", okService)] }

/-- Example Box with two post-services whose starts fail, for
exhibiting the possible map iteration orders of `postStart`. -/
def cb6f : Box :=
  { cbW1 with postServices :=
      [("a", { okService with startB := some (Err.msg "ea") }),
       ("b", { okService with startB := some (Err.msg "eb") })] }

/-- Example Box with one explicitly tagged inbound whose start
fails, for comparing the identities used by `start` and `Close`. -/
def cb4 : Box :=
  { cbW1 with inbounds :=
      [{ tag := "foo", typ := "http", startB := some (Err.msg "x"), closeB := .res none }] }

/-- The outbound list `New` hands to `Router.Initialize` for the
example environment and configuration: the static outbound under its
defaulted tag, then the four provider-supplied outbounds. -/
def LA : List Outbound :=
  [{ tag := "0", typ := "direct", startB := none, postStartB := none, closeB := .res none },
   { tag := "po-0-0", typ := "t", startB := none, postStartB := none, closeB := .res none },
   { tag := "po-0-1", typ := "t", startB := none, postStartB := none, closeB := .res none },
   { tag := "po-pB-0", typ := "t", startB := none, postStartB := none, closeB := .res none },
   { tag := "po-pB-1", typ := "t", startB := none, postStartB := none, closeB := .res none }]

/-- The Box `New` builds for the example environment and
configuration. -/
def bA : Box :=
  { router := { startB := none, closeB := .res none }
    inbounds := [{ tag := "", typ := "http", startB := none, closeB := .res none }]
    outbounds := LA ++
      [{ tag := "default", typ := "direct", startB := none, postStartB := none,
         closeB := .res none }]
    proxyProviders := [{ tag := "0", startB := none, closeB := .res none },
                       { tag := "pB", startB := none, closeB := .res none }]
    ruleProviders := [{ tag := "0", startB := none, closeB := .res none }]
    logFactory := { closeB := .res none }
    preServices := [("clash api", okService)]
    postServices := []
    done := false }

/-- The event trace of that `New` run. -/
def trA : List NewEv :=
  [NewEv.newLogger "ruleprovider[0]",
   NewEv.formatRuleCall 0 none (some [{ id := 1 }]),
   NewEv.setRouter "0",
   NewEv.newLogger "inbound/http[0]",
   NewEv.newLogger "outbound/direct[0]",
   NewEv.newLogger "proxyprovider[0]",
   NewEv.newLogger "outbound/t[po-0-0]",
   NewEv.newLogger "outbound/t[po-0-1]",
   NewEv.newLogger "proxyprovider[pB]",
   NewEv.newLogger "outbound/t[po-pB-0]",
   NewEv.newLogger "outbound/t[po-pB-1]",
   NewEv.initializeCall LA,
   NewEv.defaultFactoryCall]

theorem idxFrom_map_snd (k : Nat) (l : List α) : (idxFrom k l).map Prod.snd = l := by
  induction l generalizing k with
  | nil => rfl
  | cons a l ih => simp [idxFrom, ih]

theorem idxFrom_map_fst (k : Nat) (l : List α) :
    (idxFrom k l).map Prod.fst = List.range' k l.length := by
  induction l generalizing k with
  | nil => rfl
  | cons a l ih => simp [idxFrom, ih, List.range'_succ]

theorem range_filterMap_get (l : List α) :
    (List.range l.length).filterMap (fun i => l.get? i) = l := by
  induction l with
  | nil => rfl
  | cons a l ih =>
    rw [List.length_cons, List.range_succ_eq_map, List.filterMap_cons]
    simp only [List.get?_cons_zero, List.filterMap_map]
    have : (fun i => (a :: l).get? i) ∘ Nat.succ = fun i => l.get? i := by
      funext i
      simp
    rw [this, ih]

theorem iterIdx_map_snd (l : List α) (π : List Nat) :
    (iterIdx l π).map Prod.snd = π.filterMap (fun i => l.get? i) := by
  rw [iterIdx, List.map_filterMap]
  congr 1
  funext i
  cases l.get? i <;> simp

/-- Under a valid Go map iteration order, the values visited are a
permutation of the association list. -/
theorem iterIdx_snd_perm (l : List α) (π : List Nat)
    (h : π.Perm (List.range l.length)) :
    ((iterIdx l π).map Prod.snd).Perm l := by
  rw [iterIdx_map_snd]
  have := h.filterMap (fun i => l.get? i)
  rwa [range_filterMap_get] at this

theorem iterIdx_map_fst (l : List α) (π : List Nat)
    (h : ∀ i ∈ π, i < l.length) :
    (iterIdx l π).map Prod.fst = π := by
  induction π with
  | nil => rfl
  | cons i π ih =>
    have hi : i < l.length := h i (List.mem_cons_self i π)
    have hg : l.get? i = some (l.get ⟨i, hi⟩) := List.get?_eq_get hi
    simp only [iterIdx, List.filterMap_cons, hg, Option.map_some']
    simp only [List.map_cons]
    rw [show List.filterMap (fun j => (l.get? j).map fun a => (j, a)) π = iterIdx l π from rfl]
    rw [ih (fun j hj => h j (List.mem_cons_of_mem i hj))]

theorem iterIdx_length (l : List α) (π : List Nat)
    (h : ∀ i ∈ π, i < l.length) : (iterIdx l π).length = π.length := by
  have := congrArg List.length (iterIdx_map_fst l π h)
  simpa using this

/-- Membership transfer for predicates over a valid map iteration. -/
theorem iterIdx_forall_snd (l : List α) (π : List Nat) (p : α → Prop)
    (h : π.Perm (List.range l.length)) :
    (∀ x ∈ iterIdx l π, p x.2) ↔ (∀ a ∈ l, p a) := by
  constructor
  · intro hp a ha
    have : a ∈ (iterIdx l π).map Prod.snd := ((iterIdx_snd_perm l π h).mem_iff).2 ha
    obtain ⟨x, hx, rfl⟩ := List.mem_map.1 this
    exact hp x hx
  · intro hp x hx
    have : x.2 ∈ (iterIdx l π).map Prod.snd := List.mem_map_of_mem Prod.snd hx
    exact hp x.2 (((iterIdx_snd_perm l π h).mem_iff).1 this)

theorem eAppend_eq_none (errs e : Option Err) (w : Err → Err) :
    eAppend errs e w = none ↔ errs = none ∧ e = none := by
  cases e <;> cases errs <;> simp [eAppend]

/-- A run of `closeSeq` that returns (no component panicked) visits
exactly the given items, in order. -/
theorem closeSeq_ret_trace (errs : Option Err) (items : List (Subsys × String × COut))
    (e : Option Err) (t : List (Subsys × String))
    (h : closeSeq errs items = .ret e t) :
    t = items.map (fun it => (it.1, it.2.1)) := by
  induction items generalizing errs e t with
  | nil =>
    simp [closeSeq] at h
    simp [h.2]
  | cons it rest ih =>
    obtain ⟨sub, label, b⟩ := it
    cases b with
    | panics v => simp [closeSeq] at h
    | res eb =>
      simp only [closeSeq] at h
      cases hrec : closeSeq (eAppend errs eb (Err.cause label)) rest with
      | ret e2 t2 =>
        rw [hrec] at h
        cases h
        simp [ih _ _ _ hrec]
      | panicked v t2 => rw [hrec] at h; cases h

/-- If no item panics, `closeSeq` returns. -/
theorem closeSeq_no_panic (errs : Option Err) (items : List (Subsys × String × COut))
    (h : ∀ it ∈ items, ∀ v, it.2.2 ≠ COut.panics v) :
    ∃ e, closeSeq errs items = .ret e (items.map (fun it => (it.1, it.2.1))) := by
  induction items generalizing errs with
  | nil => exact ⟨errs, rfl⟩
  | cons it rest ih =>
    obtain ⟨sub, label, b⟩ := it
    cases b with
    | panics v =>
      exact absurd rfl (h (sub, label, .panics v) (List.mem_cons_self _ _) v)
    | res eb =>
      obtain ⟨e, he⟩ := ih (eAppend errs eb (Err.cause label))
        (fun x hx => h x (List.mem_cons_of_mem _ hx))
      refine ⟨e, ?_⟩
      simp only [closeSeq, he]
      rfl

/-- The aggregate of a completed `closeSeq` run is nil exactly when
the accumulator was nil and every visited close returned nil. -/
theorem closeSeq_none_iff (errs : Option Err) (items : List (Subsys × String × COut))
    (e : Option Err) (t : List (Subsys × String))
    (h : closeSeq errs items = .ret e t) :
    (e = none ↔ errs = none ∧ ∀ it ∈ items, it.2.2.clean = true) := by
  induction items generalizing errs e t with
  | nil =>
    simp [closeSeq] at h
    simp [h.1]
  | cons it rest ih =>
    obtain ⟨sub, label, b⟩ := it
    cases b with
    | panics v => simp [closeSeq] at h
    | res eb =>
      simp only [closeSeq] at h
      cases hrec : closeSeq (eAppend errs eb (Err.cause label)) rest with
      | ret e2 t2 =>
        rw [hrec] at h
        cases h
        rw [ih _ _ _ hrec, eAppend_eq_none]
        constructor
        · rintro ⟨⟨h1, h2⟩, h3⟩
          exact ⟨h1, by
            intro x hx
            rcases List.mem_cons.1 hx with rfl | hx
            · simp [COut.clean, h2]
            · exact h3 x hx⟩
        · rintro ⟨h1, h2⟩
          have hb := h2 (sub, label, .res eb) (List.mem_cons_self _ _)
          simp [COut.clean] at hb
          refine ⟨⟨h1, ?_⟩, fun x hx => h2 x (List.mem_cons_of_mem _ hx)⟩
          cases eb with
          | none => rfl
          | some v => simp at hb
      | panicked v t2 => rw [hrec] at h; cases h

theorem idxFrom_forall (k : Nat) (l : List α) (p : α → Prop) :
    (∀ x ∈ idxFrom k l, p x.2) ↔ (∀ a ∈ l, p a) := by
  constructor
  · intro hp a ha
    have : a ∈ (idxFrom k l).map Prod.snd := by rw [idxFrom_map_snd]; exact ha
    obtain ⟨x, hx, rfl⟩ := List.mem_map.1 this
    exact hp x hx
  · intro hp x hx
    have : x.2 ∈ (idxFrom k l).map Prod.snd := List.mem_map_of_mem Prod.snd hx
    rw [idxFrom_map_snd] at this
    exact hp x.2 this

/-- Transfer a predicate on the close behaviours of the items of
`closeItems` to the components of the Box. -/
theorem closeItems_forall (s : Box) (πpost πpre : List Nat) (p : COut → Prop)
    (hpost : πpost.Perm (List.range s.postServices.length))
    (hpre : πpre.Perm (List.range s.preServices.length)) :
    (∀ it ∈ s.closeItems πpost πpre, p it.2.2) ↔
      ((∀ x ∈ s.postServices, p x.2.closeB) ∧ (∀ x ∈ s.ruleProviders, p x.closeB)
        ∧ (∀ x ∈ s.proxyProviders, p x.closeB) ∧ (∀ x ∈ s.inbounds, p x.closeB)
        ∧ (∀ x ∈ s.outbounds, p x.closeB) ∧ p s.router.closeB
        ∧ (∀ x ∈ s.preServices, p x.2.closeB) ∧ p s.logFactory.closeB) := by
  unfold Box.closeItems
  simp only [List.forall_mem_append, List.forall_mem_map]
  have e1 : (∀ j ∈ iterIdx s.postServices πpost, p j.2.2.closeB) ↔
      ∀ a ∈ s.postServices, p a.2.closeB :=
    iterIdx_forall_snd _ _ (fun a => p a.2.closeB) hpost
  have e2 : (∀ j ∈ iterIdx s.preServices πpre, p j.2.2.closeB) ↔
      ∀ a ∈ s.preServices, p a.2.closeB :=
    iterIdx_forall_snd _ _ (fun a => p a.2.closeB) hpre
  have e3 : (∀ j ∈ idxFrom 0 s.ruleProviders, p j.2.closeB) ↔
      ∀ a ∈ s.ruleProviders, p a.closeB :=
    idxFrom_forall 0 s.ruleProviders (fun a => p a.closeB)
  have e4 : (∀ j ∈ idxFrom 0 s.proxyProviders, p j.2.closeB) ↔
      ∀ a ∈ s.proxyProviders, p a.closeB :=
    idxFrom_forall 0 s.proxyProviders (fun a => p a.closeB)
  have e5 : (∀ j ∈ idxFrom 0 s.inbounds, p j.2.closeB) ↔
      ∀ a ∈ s.inbounds, p a.closeB :=
    idxFrom_forall 0 s.inbounds (fun a => p a.closeB)
  have e6 : (∀ j ∈ idxFrom 0 s.outbounds, p j.2.closeB) ↔
      ∀ a ∈ s.outbounds, p a.closeB :=
    idxFrom_forall 0 s.outbounds (fun a => p a.closeB)
  rw [e1, e2, e3, e4, e5, e6]
  simp
  tauto

theorem mapfst_pair (lst : List (Nat × α)) (F : Nat → Subsys) (G : Nat × α → String × COut) :
    (lst.map fun p => (F p.1, G p)).map Prod.fst = (lst.map Prod.fst).map F := by
  rw [List.map_map, List.map_map]
  rfl

/-- The subsystem identities visited by `closeItems`, in order: the
post-service map in range order, then the rule providers, proxy
providers, inbounds and outbounds in index order, the router, the
pre-service map in range order, and the log factory. -/
theorem closeItems_kinds (s : Box) (πpost πpre : List Nat)
    (hpost : ∀ i ∈ πpost, i < s.postServices.length)
    (hpre : ∀ i ∈ πpre, i < s.preServices.length) :
    (s.closeItems πpost πpre).map Prod.fst =
      πpost.map Subsys.postService
        ++ (List.range s.ruleProviders.length).map Subsys.ruleProvider
        ++ (List.range s.proxyProviders.length).map Subsys.proxyProvider
        ++ (List.range s.inbounds.length).map Subsys.inbound
        ++ (List.range s.outbounds.length).map Subsys.outbound
        ++ [Subsys.router]
        ++ πpre.map Subsys.preService
        ++ [Subsys.logFactory] := by
  unfold Box.closeItems
  simp only [List.map_append, mapfst_pair]
  rw [iterIdx_map_fst _ _ hpost, iterIdx_map_fst _ _ hpre,
    idxFrom_map_fst, idxFrom_map_fst, idxFrom_map_fst, idxFrom_map_fst,
    ← List.range_eq_range', ← List.range_eq_range', ← List.range_eq_range',
    ← List.range_eq_range']
  rfl

/-- Shared characterization of a first `Close` call none of whose
component closes panics: it returns, visiting exactly `closeItems`
in order, leaves the Box with `done := true`, and its aggregate is
nil exactly when every visited close returned nil. -/
theorem close_ret (s : Box) (πpost πpre : List Nat)
    (hdone : s.done = false) (hnp : s.noClosePanics = true)
    (hpost : πpost.Perm (List.range s.postServices.length))
    (hpre : πpre.Perm (List.range s.preServices.length)) :
    ∃ e, s.Close πpost πpre =
        .ret e { s with done := true }
          ((s.closeItems πpost πpre).map fun it => (it.1, it.2.1)) ∧
      (e = none ↔ ∀ it ∈ s.closeItems πpost πpre, it.2.2.clean = true) := by
  have hretAll : ∀ it ∈ s.closeItems πpost πpre, it.2.2.returns = true := by
    rw [closeItems_forall s πpost πpre (fun b => b.returns = true) hpost hpre]
    simp only [Box.noClosePanics, Bool.and_eq_true, List.all_eq_true] at hnp
    tauto
  have hne : ∀ it ∈ s.closeItems πpost πpre, ∀ v, it.2.2 ≠ COut.panics v := by
    intro it hit v hv
    have := hretAll it hit
    rw [hv] at this
    simp [COut.returns] at this
  obtain ⟨e, he⟩ := closeSeq_no_panic none (s.closeItems πpost πpre) hne
  refine ⟨e, ?_, ?_⟩
  · simp only [Box.Close, hdone, Bool.false_eq_true, if_false, he]
  · have := closeSeq_none_iff none (s.closeItems πpost πpre) _ _ he
    simpa using this

theorem subsysAll_nodup (s : Box) : s.subsysAll.Nodup := by
  have hmap : ∀ (F : Nat → Subsys), Function.Injective F →
      ∀ n, ((List.range n).map F).Nodup := by
    intro F hF n
    exact (List.nodup_range n).map hF
  unfold Box.subsysAll
  simp only [List.nodup_append, List.disjoint_append_left, List.disjoint_append_right]
  repeat' apply And.intro
  all_goals
    first
    | exact hmap _ (fun a b h => by injection h) _
    | simp [List.disjoint_left, List.mem_map]

/-- The subsystem identities of the close trace are a permutation of
the canonical enumeration. -/
theorem closeItems_kinds_perm (s : Box) (πpost πpre : List Nat)
    (hpost : πpost.Perm (List.range s.postServices.length))
    (hpre : πpre.Perm (List.range s.preServices.length)) :
    ((s.closeItems πpost πpre).map Prod.fst).Perm s.subsysAll := by
  have hpostB : ∀ i ∈ πpost, i < s.postServices.length := by
    intro i hi
    exact List.mem_range.1 (hpost.mem_iff.1 hi)
  have hpreB : ∀ i ∈ πpre, i < s.preServices.length := by
    intro i hi
    exact List.mem_range.1 (hpre.mem_iff.1 hi)
  rw [closeItems_kinds s πpost πpre hpostB hpreB]
  unfold Box.subsysAll
  exact ((((((((hpost.map _).append (List.Perm.refl _)).append
    (List.Perm.refl _)).append (List.Perm.refl _)).append
    (List.Perm.refl _)).append (List.Perm.refl _)).append
    (hpre.map _)).append (List.Perm.refl _))

/-- C1: on the first call of `Close` (the Box not yet closed, no
component close panicking), teardown returns, visits every subsystem
exactly once in the fixed order post-services, rule providers, proxy
providers, inbounds (index order), outbounds (index order), router,
pre-services, log factory; no individual close failure stops the
traversal (the visited trace is independent of the error outcomes),
every failure is folded into the one aggregate, and the aggregate is
nil exactly when every subsystem closes without error. -/
theorem c1_close_traversal (s : Box) (πpost πpre : List Nat)
    (hdone : s.done = false) (hnp : s.noClosePanics = true)
    (hpost : πpost.Perm (List.range s.postServices.length))
    (hpre : πpre.Perm (List.range s.preServices.length)) :
    ∃ e t, s.Close πpost πpre = .ret e { s with done := true } t ∧
      t.map Prod.fst =
        πpost.map Subsys.postService
          ++ (List.range s.ruleProviders.length).map Subsys.ruleProvider
          ++ (List.range s.proxyProviders.length).map Subsys.proxyProvider
          ++ (List.range s.inbounds.length).map Subsys.inbound
          ++ (List.range s.outbounds.length).map Subsys.outbound
          ++ [Subsys.router]
          ++ πpre.map Subsys.preService
          ++ [Subsys.logFactory] ∧
      (∀ sub ∈ s.subsysAll, (t.map Prod.fst).count sub = 1) ∧
      (e = none ↔ s.allCloseClean = true) := by
  obtain ⟨e, he, hiff⟩ := close_ret s πpost πpre hdone hnp hpost hpre
  have hpostB : ∀ i ∈ πpost, i < s.postServices.length := by
    intro i hi
    exact List.mem_range.1 (hpost.mem_iff.1 hi)
  have hpreB : ∀ i ∈ πpre, i < s.preServices.length := by
    intro i hi
    exact List.mem_range.1 (hpre.mem_iff.1 hi)
  have hfst : ((s.closeItems πpost πpre).map fun it => (it.1, it.2.1)).map Prod.fst =
      (s.closeItems πpost πpre).map Prod.fst := by
    rw [List.map_map]
    rfl
  refine ⟨e, _, he, ?_, ?_, ?_⟩
  · rw [hfst]
    exact closeItems_kinds s πpost πpre hpostB hpreB
  · intro sub hsub
    rw [hfst, (closeItems_kinds_perm s πpost πpre hpost hpre).count_eq]
    exact List.count_eq_one_of_mem (subsysAll_nodup s) hsub
  · rw [hiff, closeItems_forall s πpost πpre (fun b => b.clean = true) hpost hpre]
    simp only [Box.allCloseClean, Bool.and_eq_true, List.all_eq_true]
    tauto

/-- C2: `Close` is idempotent — whatever a first call of `Close` did,
the Box it leaves behind is marked closed, and a later call of
`Close` on it returns the `os.ErrClosed` error, performs no
subsystem close (empty trace), and leaves the Box unchanged. -/
theorem c2_close_idempotent (s : Box) (π1 π2 π3 π4 : List Nat) :
    ((s.Close π1 π2).box).Close π3 π4 =
      .ret (some Err.errClosed) ((s.Close π1 π2).box) [] := by
  have hdone : ((s.Close π1 π2).box).done = true := by
    unfold Box.Close
    by_cases h : s.done
    · simp [h, CloseOutcome.box]
    · simp only [h, Bool.false_eq_true, if_false]
      cases closeSeq none (s.closeItems π1 π2) <;> simp [CloseOutcome.box]
  generalize (s.Close π1 π2).box = s' at hdone ⊢
  simp [Box.Close, hdone]

/-- C1 witness: the traversal theorem instantiated at a Box with one
component of every kind, with the identity map iteration orders. -/
theorem c1_close_traversal_witness :
    ∃ e t, cbW1.Close [0] [0] = .ret e { cbW1 with done := true } t ∧
      t.map Prod.fst =
        [0].map Subsys.postService
          ++ (List.range cbW1.ruleProviders.length).map Subsys.ruleProvider
          ++ (List.range cbW1.proxyProviders.length).map Subsys.proxyProvider
          ++ (List.range cbW1.inbounds.length).map Subsys.inbound
          ++ (List.range cbW1.outbounds.length).map Subsys.outbound
          ++ [Subsys.router]
          ++ [0].map Subsys.preService
          ++ [Subsys.logFactory] ∧
      (∀ sub ∈ cbW1.subsysAll, (t.map Prod.fst).count sub = 1) ∧
      (e = none ↔ cbW1.allCloseClean = true) :=
  c1_close_traversal cbW1 [0] [0] (by decide) (by decide) (by decide) (by decide)

/-- C3: on any internal failure of `preStart` or `start`, the
exported `PreStart`/`Start` call runs `Close` on the partially
started Box and returns the original start-stage error — never an
error produced by the rollback close, whose result is discarded —
and a panic raised during the rollback close is logged together with
the original error and re-raised as a new panic. -/
theorem c3_rollback (s : Box) (πa πb πc πd : List Nat) (e : Err) :
    (s.preStart πa = some e →
      (∀ e2 s' t, s.Close πc πd = .ret e2 s' t → s.PreStart πa πc πd = .fail e s') ∧
      (∀ v s' t, s.Close πc πd = .panicked v s' t →
        s.PreStart πa πc πd =
          .panicked [Err.cause "origin error" e] ("panic on early close: " ++ v) s')) ∧
    (s.start πa πb = some e →
      (∀ e2 s' t, s.Close πc πd = .ret e2 s' t → s.Start πa πb πc πd = .fail e s') ∧
      (∀ v s' t, s.Close πc πd = .panicked v s' t →
        s.Start πa πb πc πd =
          .panicked [Err.cause "origin error" e] ("panic on early close: " ++ v) s')) := by
  constructor
  · intro h
    constructor
    · intro e2 s' t hc
      simp [Box.PreStart, h, hc]
    · intro v s' t hc
      simp [Box.PreStart, h, hc]
  · intro h
    constructor
    · intro e2 s' t hc
      simp [Box.Start, h, hc]
    · intro v s' t hc
      simp [Box.Start, h, hc]

/-- C3 witness: at a Box whose router start fails, `PreStart` and
`Start` return the original router error after a clean rollback
close, and at a Box whose log factory additionally panics on close,
the rollback panic is re-raised with the original error logged. -/
theorem c3_rollback_witness :
    cbW3.PreStart [0] [0] [0] = .fail (Err.msg "rs") { cbW3 with done := true } ∧
    cbW3.Start [0] [0] [0] [0] = .fail (Err.msg "rs") { cbW3 with done := true } ∧
    cbW3p.PreStart [0] [0] [0] =
      .panicked [Err.cause "origin error" (Err.msg "rs")]
        ("panic on early close: " ++ "pv") { cbW3p with done := true } := by
  refine
    ⟨((c3_rollback cbW3 [0] [0] [0] [0] (Err.msg "rs")).1 (by decide)).1 none
        { cbW3 with done := true }
        [(Subsys.postService 0, "close post0"),
         (Subsys.ruleProvider 0, "close ruleprovider rp0"),
         (Subsys.proxyProvider 0, "close proxyprovider pp0"),
         (Subsys.inbound 0, "close inbound/http[0]"),
         (Subsys.outbound 0, "close outbound/direct[0]"),
         (Subsys.router, "close router"),
         (Subsys.preService 0, "close clash api"),
         (Subsys.logFactory, "close log factory")] (by decide),
      ((c3_rollback cbW3 [0] [0] [0] [0] (Err.msg "rs")).2 (by decide)).1 none
        { cbW3 with done := true }
        [(Subsys.postService 0, "close post0"),
         (Subsys.ruleProvider 0, "close ruleprovider rp0"),
         (Subsys.proxyProvider 0, "close proxyprovider pp0"),
         (Subsys.inbound 0, "close inbound/http[0]"),
         (Subsys.outbound 0, "close outbound/direct[0]"),
         (Subsys.router, "close router"),
         (Subsys.preService 0, "close clash api"),
         (Subsys.logFactory, "close log factory")] (by decide),
      ((c3_rollback cbW3p [0] [0] [0] [0] (Err.msg "rs")).1 (by decide)).2 "pv"
        { cbW3p with done := true }
        [(Subsys.postService 0, "close post0"),
         (Subsys.ruleProvider 0, "close ruleprovider rp0"),
         (Subsys.proxyProvider 0, "close proxyprovider pp0"),
         (Subsys.inbound 0, "close inbound/http[0]"),
         (Subsys.outbound 0, "close outbound/direct[0]"),
         (Subsys.router, "close router"),
         (Subsys.preService 0, "close clash api"),
         (Subsys.logFactory, "close log factory")] (by decide)⟩

/-- C6: the pre- and post-service collections are Go maps, whose
`range` order is unspecified — two valid iteration orders of the same
two-entry post-service map give two different `Close` traversal
orders and two different `postStart` failure results, so the visit
order is not determined by insertion order. -/
theorem c6_map_iteration_order :
    List.Perm [0, 1] (List.range cb6.postServices.length) ∧
    List.Perm [1, 0] (List.range cb6.postServices.length) ∧
    (cb6.Close [0, 1] [0]).trace ≠ (cb6.Close [1, 0] [0]).trace ∧
    cb6f.postStart [0, 1] ≠ cb6f.postStart [1, 0] := by
  refine ⟨by decide, by decide, by decide, by decide⟩

/-- C9: the reload notification channel has capacity one and is
posted to without blocking (`trySend` is total and returns a dropped
flag instead of waiting): at most one notification is ever pending,
posting twice before any read leaves exactly one pending
notification with the second post dropped, and the caller-facing
endpoint is the receive-only view of the same channel. -/
theorem c9_reload_coalescing :
    (∀ ops : List ChanOp, (newReloadChan.run ops).pending ≤ 1) ∧
    (newReloadChan.trySend.1.trySend.1.pending = 1 ∧
      newReloadChan.trySend.1.trySend.2 = false) ∧
    (∀ ops : List ChanOp, ((newReloadChan.run ops).run [ChanOp.post, ChanOp.post]).pending = 1) ∧
    (∀ c : GoChan, (ReloadChan c).ch = c) := by
  have hinv : ∀ (ops : List ChanOp) (c : GoChan), c.pending ≤ c.cap →
      (c.run ops).pending ≤ c.cap ∧ (c.run ops).cap = c.cap := by
    intro ops
    induction ops with
    | nil => exact fun c h => ⟨h, rfl⟩
    | cons op ops ih =>
      intro c h
      cases op with
      | post =>
        have h1 : (c.trySend.1).pending ≤ c.cap ∧ (c.trySend.1).cap = c.cap := by
          unfold GoChan.trySend
          split <;> simp <;> omega
        have := ih c.trySend.1 (h1.2 ▸ h1.1)
        rw [h1.2] at this
        exact this
      | recv =>
        have h1 : (c.tryRecv.1).pending ≤ c.cap ∧ (c.tryRecv.1).cap = c.cap := by
          unfold GoChan.tryRecv
          rcases c with ⟨cap, pending⟩
          cases pending <;> simp_all <;> omega
        have := ih c.tryRecv.1 (h1.2 ▸ h1.1)
        rw [h1.2] at this
        exact this
  refine ⟨?_, by decide, ?_, fun c => rfl⟩
  · intro ops
    exact (hinv ops newReloadChan (by decide)).1
  · intro ops
    obtain ⟨hp, hc⟩ := hinv ops newReloadChan (by decide)
    rcases hcase : newReloadChan.run ops with ⟨cap, pending⟩
    rw [hcase] at hp hc
    simp only [newReloadChan] at hp hc
    subst hc
    interval_cases pending <;> decide

theorem cenvA_conformant : cenvA.Conformant := by
  constructor
  · intro tag o out h
    simp only [cenvA, Except.ok.injEq] at h
    subst h
    exact ⟨rfl, rfl⟩
  · intro o inb h
    simp only [cenvA, Except.ok.injEq] at h
    subst h
    exact ⟨rfl, rfl⟩
  · intro tag o impl h
    simp only [cenvA, Except.ok.injEq] at h
    subst h
    rfl
  · intro tag o impl h
    simp only [cenvA, Except.ok.injEq] at h
    subst h
    rfl

/-- Under the interface facts, an outbound constructed by the static
outbound loop carries the defaulted tag, whether or not the
configured tag was present. -/
theorem buildOutboundsAux_tags (env : Env) (henv : env.Conformant) :
    ∀ (l : List OutboundOptions) (k : Nat) (outs : List Outbound) (tr : List NewEv),
      buildOutboundsAux env k l = .ok (outs, tr) →
      outs.map Outbound.tag = (idxFrom k l).map fun p => defaultTag p.2.tag p.1 := by
  intro l
  induction l with
  | nil =>
    intro k outs tr h
    simp [buildOutboundsAux] at h
    simp [h.1, idxFrom]
  | cons o rest ih =>
    intro k outs tr h
    simp only [buildOutboundsAux] at h
    cases h1 : env.newOutbound (defaultTag o.tag k) o with
    | error e => rw [h1] at h; cases h
    | ok out =>
      rw [h1] at h
      cases h2 : buildOutboundsAux env (k + 1) rest with
      | error e => rw [h2] at h; cases h
      | ok x =>
        obtain ⟨outs2, tr2⟩ := x
        rw [h2] at h
        cases h
        have htag := (henv.outbound_tag _ _ _ h1).1
        have hout : out.tag = defaultTag o.tag k := by
          rw [htag]
          unfold defaultTag
          by_cases ho : o.tag = "" <;> simp [ho]
        simp [idxFrom, hout, ih (k + 1) outs2 tr2 h2]

/-- An inbound constructed by the inbound loop keeps the configured
tag: the defaulted tag names only the logger and is not assigned to
the inbound. -/
theorem buildInboundsAux_tags (env : Env) (henv : env.Conformant) :
    ∀ (l : List InboundOptions) (k : Nat) (ins : List Inbound) (tr : List NewEv),
      buildInboundsAux env k l = .ok (ins, tr) →
      ins.map Inbound.tag = l.map InboundOptions.tag := by
  intro l
  induction l with
  | nil =>
    intro k ins tr h
    simp [buildInboundsAux] at h
    simp [h.1]
  | cons o rest ih =>
    intro k ins tr h
    simp only [buildInboundsAux] at h
    cases h1 : env.newInbound o with
    | error e => rw [h1] at h; cases h
    | ok inb =>
      rw [h1] at h
      cases h2 : buildInboundsAux env (k + 1) rest with
      | error e => rw [h2] at h; cases h
      | ok x =>
        obtain ⟨ins2, tr2⟩ := x
        rw [h2] at h
        cases h
        simp [(henv.inbound_tag _ _ h1).1, ih (k + 1) ins2 tr2 h2]

/-- A rule provider constructed by the rule provider loop carries the
defaulted tag, written back into its options. -/
theorem buildRuleProvidersAux_tags (env : Env) (henv : env.Conformant) :
    ∀ (l : List RuleProviderOptions) (i : Nat) (ro : RouteOptions) (dns : DNSOptions)
      (rps : List RuleProvider) (ro' : RouteOptions) (dns' : DNSOptions) (tr : List NewEv),
      buildRuleProvidersAux env i ro dns l = .ok (rps, ro', dns', tr) →
      rps.map RuleProvider.tag = (idxFrom i l).map fun p => defaultTag p.2.tag p.1 := by
  intro l
  induction l with
  | nil =>
    intro i ro dns rps ro' dns' tr h
    simp [buildRuleProvidersAux] at h
    simp [h.1, idxFrom]
  | cons o rest ih =>
    intro i ro dns rps ro' dns' tr h
    simp only [buildRuleProvidersAux] at h
    cases h1 : env.newRuleProvider (defaultTag o.tag i) { o with tag := defaultTag o.tag i } with
    | error e => simp only [h1] at h; cases h
    | ok impl =>
      simp only [h1] at h
      cases h2 : impl.formatRule (if dns.rules = [] then none else some dns.rules)
          (if ro.rules = [] then none else some ro.rules) with
      | error e => simp only [h2] at h; cases h
      | ok nr =>
        obtain ⟨newDNS, newRoute⟩ := nr
        simp only [h2] at h
        cases h3 : buildRuleProvidersAux env (i + 1)
            (if ro.rules = [] then ro else { rules := newRoute })
            (if dns.rules = [] then dns else { rules := newDNS }) rest with
        | error e => simp only [h3] at h; cases h
        | ok x =>
          obtain ⟨rps2, ro2, dns2, tr2⟩ := x
          simp only [h3] at h
          cases h
          simp [idxFrom, henv.ruleProvider_tag _ _ _ h1, ih _ _ _ _ _ _ _ h3]

/-- A proxy provider constructed by the proxy provider loop carries
the defaulted tag, written back into its options. -/
theorem buildProxyProvidersAux_tags (env : Env) (henv : env.Conformant) :
    ∀ (l : List ProxyProviderOptions) (i : Nat) (pps : List ProxyProvider)
      (pouts : List Outbound) (tr : List NewEv),
      buildProxyProvidersAux env i l = .ok (pps, pouts, tr) →
      pps.map ProxyProvider.tag = (idxFrom i l).map fun p => defaultTag p.2.tag p.1 := by
  intro l
  induction l with
  | nil =>
    intro i pps pouts tr h
    simp [buildProxyProvidersAux] at h
    simp [h.1, idxFrom]
  | cons o rest ih =>
    intro i pps pouts tr h
    simp only [buildProxyProvidersAux] at h
    cases h1 : env.newProxyProvider (defaultTag o.tag i) { o with tag := defaultTag o.tag i } with
    | error e => simp only [h1] at h; cases h
    | ok impl =>
      simp only [h1] at h
      cases h2 : impl.startGetOutbounds with
      | error e => simp only [h2] at h; cases h
      | ok oopts =>
        simp only [h2] at h
        cases h3 : buildProviderOutboundsAux env impl.pp.tag 0 oopts with
        | error e => simp only [h3] at h; cases h
        | ok x =>
          obtain ⟨outs1, tr1⟩ := x
          simp only [h3] at h
          cases h4 : buildProxyProvidersAux env (i + 1) rest with
          | error e => simp only [h4] at h; cases h
          | ok y =>
            obtain ⟨pps2, outs2, tr2⟩ := y
            simp only [h4] at h
            cases h
            simp [idxFrom, henv.proxyProvider_tag _ _ _ h1, ih _ _ _ _ h4]

/-- C4 counterexample: the identity used by `Close` for an inbound is
its positional index, not the tag used by `start` — for an inbound
explicitly tagged `foo`, `start` wraps its failure with
`inbound/http[foo]` while `Close` wraps with `inbound/http[0]` — and
construction does not assign the defaulted tag to an untagged
inbound: the inbound built from an untagged configuration carries the
empty tag, not `0`. -/
theorem c4_tag_identity_counterexample :
    cb4.start [0] [0] = some (Err.cause "initialize inbound/http[foo]" (Err.msg "x")) ∧
    (Subsys.inbound 0, "close inbound/http[0]") ∈ (cb4.Close [0] [0]).trace ∧
    ("close inbound/http[0]" : String) ≠ "close inbound/http[foo]" ∧
    buildInboundsAux cenvA 0 [{ tag := "", typ := "http" }] =
      .ok ([{ tag := "", typ := "http", startB := none, closeB := .res none }],
        [NewEv.newLogger "inbound/http[0]"]) ∧
    ("" : String) ≠ "0" := by
  refine ⟨by decide, by decide, by decide, by rfl, by decide⟩

/-- C4 amended: outbounds, rule providers and proxy providers are
constructed under the defaulted (explicit-or-index) tag, assigned
once during `New`; inbounds keep their configured tag (possibly
empty) and `start` recomputes the explicit-or-index identity for its
logging and error wrapping; `Close` identifies inbounds and outbounds
by positional index — not by tag — and providers by tag. -/
theorem c4_tags_amended (env : Env) (henv : env.Conformant) :
    (∀ l k outs tr, buildOutboundsAux env k l = .ok (outs, tr) →
      outs.map Outbound.tag = (idxFrom k l).map fun p => defaultTag p.2.tag p.1) ∧
    (∀ l i ro dns rps ro' dns' tr,
      buildRuleProvidersAux env i ro dns l = .ok (rps, ro', dns', tr) →
      rps.map RuleProvider.tag = (idxFrom i l).map fun p => defaultTag p.2.tag p.1) ∧
    (∀ l i pps pouts tr, buildProxyProvidersAux env i l = .ok (pps, pouts, tr) →
      pps.map ProxyProvider.tag = (idxFrom i l).map fun p => defaultTag p.2.tag p.1) ∧
    (∀ l k ins tr, buildInboundsAux env k l = .ok (ins, tr) →
      ins.map Inbound.tag = l.map InboundOptions.tag) ∧
    (∀ tag i, startInboundIdent tag i = defaultTag tag i) ∧
    (∀ s : Box, ∀ πpost πpre : List Nat, ∀ p ∈ idxFrom 0 s.inbounds,
      (Subsys.inbound p.1, closeInboundLabel p.2.typ p.1, p.2.closeB)
        ∈ s.closeItems πpost πpre) ∧
    (∀ s : Box, ∀ πpost πpre : List Nat, ∀ p ∈ idxFrom 0 s.outbounds,
      (Subsys.outbound p.1, closeOutboundLabel p.2.typ p.1, p.2.closeB)
        ∈ s.closeItems πpost πpre) ∧
    (∀ s : Box, ∀ πpost πpre : List Nat, ∀ p ∈ idxFrom 0 s.ruleProviders,
      (Subsys.ruleProvider p.1, "close ruleprovider " ++ p.2.tag, p.2.closeB)
        ∈ s.closeItems πpost πpre) := by
  refine ⟨fun l k outs tr h => buildOutboundsAux_tags env henv l k outs tr h,
    fun l i ro dns rps ro' dns' tr h =>
      buildRuleProvidersAux_tags env henv l i ro dns rps ro' dns' tr h,
    fun l i pps pouts tr h => buildProxyProvidersAux_tags env henv l i pps pouts tr h,
    fun l k ins tr h => buildInboundsAux_tags env henv l k ins tr h,
    fun tag i => rfl, ?_, ?_, ?_⟩
  · intro s πpost πpre p hp
    unfold Box.closeItems
    simp only [List.mem_append, List.mem_map]
    exact Or.inl (Or.inl (Or.inl (Or.inl (Or.inr ⟨p, hp, rfl⟩))))
  · intro s πpost πpre p hp
    unfold Box.closeItems
    simp only [List.mem_append, List.mem_map]
    exact Or.inl (Or.inl (Or.inl (Or.inr ⟨p, hp, rfl⟩)))
  · intro s πpost πpre p hp
    unfold Box.closeItems
    simp only [List.mem_append, List.mem_map]
    exact Or.inl (Or.inl (Or.inl (Or.inl (Or.inl (Or.inl (Or.inr ⟨p, hp, rfl⟩))))))

/-- C4 witness: the amended theorem instantiated at the example
environment and the example Box with a tagged inbound. -/
theorem c4_tags_amended_witness :
    ([({ tag := "0", typ := "direct", startB := none, postStartB := none,
          closeB := .res none } : Outbound)].map Outbound.tag =
        (idxFrom 0 [({ tag := "", typ := "direct" } : OutboundOptions)]).map
          fun p => defaultTag p.2.tag p.1) ∧
    (Subsys.inbound 0, closeInboundLabel "http" 0, COut.res none)
      ∈ cb4.closeItems [0] [0] := by
  obtain ⟨h1, h2, h3, h4, h5, h6, h7, h8⟩ := c4_tags_amended cenvA cenvA_conformant
  refine ⟨h1 [{ tag := "", typ := "direct" }] 0
      [{ tag := "0", typ := "direct", startB := none, postStartB := none,
         closeB := .res none }]
      [NewEv.newLogger "outbound/direct[0]"] (by rfl), ?_⟩
  exact h6 cb4 [0] [0]
    (0, { tag := "foo", typ := "http", startB := some (Err.msg "x"), closeB := .res none })
    (by decide)

/-- C5 counterexample: with one configured rule provider and both
rule lists empty, a run of `New` still calls `FormatRule` exactly
once (passing both lists as absent), where the claim requires no call
at all. -/
theorem c5_formatrule_called_when_empty :
    oEmpty.route.rules = [] ∧ oEmpty.dns.rules = [] ∧
    formatRuleCalls (New cenvA oEmpty).traceOf = 1 ∧
    NewEv.formatRuleCall 0 none none ∈ (New cenvA oEmpty).traceOf := by
  refine ⟨rfl, rfl, by decide, by decide⟩

/-- C5 amended: the rule provider loop calls `FormatRule` exactly
once per configured provider, in index order; each rule list is
passed as a present argument only when it is non-empty at that point
(an empty list is passed as absent), and a rule list is replaced by
the rewritten list only when it was non-empty. -/
theorem c5_formatrule_semantics :
    (∀ env i ro dns l rps ro' dns' tr,
      buildRuleProvidersAux env i ro dns l = .ok (rps, ro', dns', tr) →
      formatRuleCalls tr = l.length) ∧
    (∀ env i ro dns (o : RuleProviderOptions) rps ro' dns' tr,
      buildRuleProvidersAux env i ro dns [o] = .ok (rps, ro', dns', tr) →
      ∃ impl newDNS newRoute,
        env.newRuleProvider (defaultTag o.tag i) { o with tag := defaultTag o.tag i }
          = .ok impl ∧
        impl.formatRule (if dns.rules = [] then none else some dns.rules)
            (if ro.rules = [] then none else some ro.rules) = .ok (newDNS, newRoute) ∧
        tr = [NewEv.newLogger ("ruleprovider[" ++ defaultTag o.tag i ++ "]"),
              NewEv.formatRuleCall i (if dns.rules = [] then none else some dns.rules)
                (if ro.rules = [] then none else some ro.rules)] ∧
        ro' = (if ro.rules = [] then ro else { rules := newRoute }) ∧
        dns' = (if dns.rules = [] then dns else { rules := newDNS })) := by
  constructor
  · intro env i ro dns l
    induction l generalizing i ro dns with
    | nil =>
      intro rps ro' dns' tr h
      simp [buildRuleProvidersAux] at h
      simp [h.2.2.2, formatRuleCalls]
    | cons o rest ih =>
      intro rps ro' dns' tr h
      simp only [buildRuleProvidersAux] at h
      cases h1 : env.newRuleProvider (defaultTag o.tag i) { o with tag := defaultTag o.tag i } with
      | error e => simp only [h1] at h; cases h
      | ok impl =>
        simp only [h1] at h
        cases h2 : impl.formatRule (if dns.rules = [] then none else some dns.rules)
            (if ro.rules = [] then none else some ro.rules) with
        | error e => simp only [h2] at h; cases h
        | ok nr =>
          obtain ⟨newDNS, newRoute⟩ := nr
          simp only [h2] at h
          cases h3 : buildRuleProvidersAux env (i + 1)
              (if ro.rules = [] then ro else { rules := newRoute })
              (if dns.rules = [] then dns else { rules := newDNS }) rest with
          | error e => simp only [h3] at h; cases h
          | ok x =>
            obtain ⟨rps2, ro2, dns2, tr2⟩ := x
            simp only [h3] at h
            cases h
            have := ih (i + 1) _ _ _ _ _ _ h3
            simp [formatRuleCalls, List.countP_cons] at this ⊢
            omega
  · intro env i ro dns o rps ro' dns' tr h
    simp only [buildRuleProvidersAux] at h
    cases h1 : env.newRuleProvider (defaultTag o.tag i) { o with tag := defaultTag o.tag i } with
    | error e => simp only [h1] at h; cases h
    | ok impl =>
      simp only [h1] at h
      cases h2 : impl.formatRule (if dns.rules = [] then none else some dns.rules)
          (if ro.rules = [] then none else some ro.rules) with
      | error e => simp only [h2] at h; cases h
      | ok nr =>
        obtain ⟨newDNS, newRoute⟩ := nr
        simp only [h2] at h
        cases h
        exact ⟨impl, newDNS, newRoute, rfl, h2, rfl, rfl, rfl⟩

/-- C5 witness: the amended semantics instantiated at the example
environment, a non-empty route rule list and an empty DNS rule
list. -/
theorem c5_formatrule_semantics_witness :
    formatRuleCalls [NewEv.newLogger "ruleprovider[0]",
      NewEv.formatRuleCall 0 none (some [{ id := 1 }])] = 1 ∧
    ∃ impl newDNS newRoute,
      cenvA.newRuleProvider (defaultTag "" 0) { tag := defaultTag "" 0 } = .ok impl ∧
      impl.formatRule none (some [{ id := 1 }]) = .ok (newDNS, newRoute) ∧
      ([NewEv.newLogger "ruleprovider[0]",
          NewEv.formatRuleCall 0 none (some [{ id := 1 }])] : List NewEv) =
        [NewEv.newLogger ("ruleprovider[" ++ defaultTag "" 0 ++ "]"),
         NewEv.formatRuleCall 0 none (some [{ id := 1 }])] ∧
      ({ rules := [{ id := 1 }] } : RouteOptions) = { rules := newRoute } ∧
      ({ rules := [] } : DNSOptions) = { rules := [] } := by
  obtain ⟨ha, hb⟩ := c5_formatrule_semantics
  constructor
  · exact ha cenvA 0 { rules := [{ id := 1 }] } { rules := [] } [{ tag := "" }]
      [{ tag := "0", startB := none, closeB := .res none }]
      { rules := [{ id := 1 }] } { rules := [] }
      [NewEv.newLogger "ruleprovider[0]",
        NewEv.formatRuleCall 0 none (some [{ id := 1 }])] (by rfl)
  · have := hb cenvA 0 { rules := [{ id := 1 }] } { rules := [] } { tag := "" }
      [{ tag := "0", startB := none, closeB := .res none }]
      { rules := [{ id := 1 }] } { rules := [] }
      [NewEv.newLogger "ruleprovider[0]",
        NewEv.formatRuleCall 0 none (some [{ id := 1 }])] (by rfl)
    simpa using this

/-- Anatomy of a successful `New` run: every stage succeeded, the Box
fields are the stage results, the trace is the stage traces in order
with the `Initialize` record, and the outbound list was extended by
the default outbound exactly when the router requested it. -/
theorem New_ok_parts (env : Env) (o : Options) (b : Box) (tr : List NewEv)
    (h : New env o = .ok b tr) :
    ∃ rps ro dns tr1 router ins tr3 souts tr4 pps pouts tr5 outs2 trD pre2,
      env.logFactoryErr = none ∧
      buildRuleProvidersAux env 0 o.route o.dns o.rulProviders = .ok (rps, ro, dns, tr1) ∧
      env.newRouter ro dns = .ok router ∧
      buildInboundsAux env 0 o.inbounds = .ok (ins, tr3) ∧
      buildOutboundsAux env 0 o.outbounds = .ok (souts, tr4) ∧
      buildProxyProvidersAux env 0 o.proxyProviders = .ok (pps, pouts, tr5) ∧
      b = { router := router, inbounds := ins, outbounds := outs2, proxyProviders := pps,
            ruleProviders := rps, logFactory := env.logFactory, preServices := pre2,
            postServices := [], done := false } ∧
      tr = tr1 ++ rps.map (fun rp => NewEv.setRouter rp.tag) ++ tr3 ++ tr4 ++ tr5
        ++ [NewEv.initializeCall (souts ++ pouts)] ++ trD ∧
      ((env.routerNeedsDefault = false ∧ outs2 = souts ++ pouts ∧ trD = []) ∨
        (env.routerNeedsDefault = true ∧ ∃ dout,
          env.newOutbound "direct" directDefaultOptions = .ok dout ∧
          outs2 = (souts ++ pouts) ++ [dout] ∧ trD = [NewEv.defaultFactoryCall])) := by
  unfold New at h
  cases h0 : env.logFactoryErr with
  | some e => simp only [h0] at h; cases h
  | none =>
  simp only [h0] at h
  cases h1 : buildRuleProvidersAux env 0 o.route o.dns o.rulProviders with
  | error e => simp only [h1] at h; cases h
  | ok x1 =>
  obtain ⟨rps, ro, dns, tr1⟩ := x1
  simp only [h1] at h
  cases h2 : env.newRouter ro dns with
  | error e => simp only [h2] at h; cases h
  | ok router =>
  simp only [h2] at h
  cases h3 : buildInboundsAux env 0 o.inbounds with
  | error e => simp only [h3] at h; cases h
  | ok x3 =>
  obtain ⟨ins, tr3⟩ := x3
  simp only [h3] at h
  cases h4 : buildOutboundsAux env 0 o.outbounds with
  | error e => simp only [h4] at h; cases h
  | ok x4 =>
  obtain ⟨souts, tr4⟩ := x4
  simp only [h4] at h
  cases h5 : buildProxyProvidersAux env 0 o.proxyProviders with
  | error e => simp only [h5] at h; cases h
  | ok x5 =>
  obtain ⟨pps, pouts, tr5⟩ := x5
  simp only [h5] at h
  cases hrd : env.routerNeedsDefault with
  | false =>
    simp only [hrd, Bool.false_eq_true, if_false] at h
    cases h6 : env.initializeErr with
    | some e => simp only [h6] at h; cases h
    | none =>
    simp only [h6] at h
    cases h7 : (if o.hasPlatformInterface then env.platformInitializeErr else none) with
    | some e => simp only [h7] at h; cases h
    | none =>
    simp only [h7] at h
    cases h8 : (if needClashAPI o then
        match env.newClashServer with
        | .error e => .error (Err.cause "create clash api server" e)
        | .ok cs => .ok [("clash api", cs)]
      else .ok [] : Except Err (List (String × Service))) with
    | error e => simp only [h8] at h; cases h
    | ok pre1 =>
    simp only [h8] at h
    cases h9 : (if needV2RayAPI o then
        match env.newV2RayServer with
        | .error e => .error (Err.cause "create v2ray api server" e)
        | .ok vs => .ok (pre1 ++ [("v2ray api", vs)])
      else .ok pre1 : Except Err (List (String × Service))) with
    | error e => simp only [h9] at h; cases h
    | ok pre2 =>
    simp only [h9] at h
    cases h
    exact ⟨rps, ro, dns, tr1, router, ins, tr3, souts, tr4, pps, pouts, tr5,
      souts ++ pouts, [], pre2, rfl, rfl, h2, rfl, rfl, rfl, rfl, rfl,
      Or.inl ⟨rfl, rfl, rfl⟩⟩
  | true =>
    simp only [hrd, if_true] at h
    cases hno : env.newOutbound "direct" directDefaultOptions with
    | error e =>
      simp only [defaultOutboundFactory, hno] at h
      cases h
    | ok dout =>
    simp only [defaultOutboundFactory, hno] at h
    cases h6 : env.initializeErr with
    | some e => simp only [h6] at h; cases h
    | none =>
    simp only [h6] at h
    cases h7 : (if o.hasPlatformInterface then env.platformInitializeErr else none) with
    | some e => simp only [h7] at h; cases h
    | none =>
    simp only [h7] at h
    cases h8 : (if needClashAPI o then
        match env.newClashServer with
        | .error e => .error (Err.cause "create clash api server" e)
        | .ok cs => .ok [("clash api", cs)]
      else .ok [] : Except Err (List (String × Service))) with
    | error e => simp only [h8] at h; cases h
    | ok pre1 =>
    simp only [h8] at h
    cases h9 : (if needV2RayAPI o then
        match env.newV2RayServer with
        | .error e => .error (Err.cause "create v2ray api server" e)
        | .ok vs => .ok (pre1 ++ [("v2ray api", vs)])
      else .ok pre1 : Except Err (List (String × Service))) with
    | error e => simp only [h9] at h; cases h
    | ok pre2 =>
    simp only [h9] at h
    cases h
    exact ⟨rps, ro, dns, tr1, router, ins, tr3, souts, tr4, pps, pouts, tr5,
      (souts ++ pouts) ++ [dout], [NewEv.defaultFactoryCall], pre2, rfl, rfl, h2, rfl,
      rfl, rfl, rfl, rfl, Or.inr ⟨rfl, dout, rfl, rfl, rfl⟩⟩

/-- An event that is neither an `Initialize` record nor a factory
invocation. -/
def NewEv.benign : NewEv → Prop
  | .initializeCall _ => False
  | .defaultFactoryCall => False
  | _ => True

theorem benign_factoryCalls (tr : List NewEv) (h : ∀ ev ∈ tr, ev.benign) :
    factoryCalls tr = 0 := by
  unfold factoryCalls
  rw [List.countP_eq_zero]
  intro ev hev
  have := h ev hev
  cases ev <;> simp_all [NewEv.benign]

theorem benign_initArg (tr : List NewEv) (h : ∀ ev ∈ tr, ev.benign) :
    tr.filterMap NewEv.initArg = [] := by
  rw [List.filterMap_eq_nil]
  intro ev hev
  have := h ev hev
  cases ev <;> simp_all [NewEv.benign, NewEv.initArg]

theorem buildRuleProvidersAux_benign (env : Env) :
    ∀ (l : List RuleProviderOptions) (i : Nat) (ro : RouteOptions) (dns : DNSOptions)
      (rps : List RuleProvider) (ro' : RouteOptions) (dns' : DNSOptions) (tr : List NewEv),
      buildRuleProvidersAux env i ro dns l = .ok (rps, ro', dns', tr) →
      ∀ ev ∈ tr, ev.benign := by
  intro l
  induction l with
  | nil =>
    intro i ro dns rps ro' dns' tr h
    simp [buildRuleProvidersAux] at h
    simp [h.2.2.2]
  | cons o rest ih =>
    intro i ro dns rps ro' dns' tr h
    simp only [buildRuleProvidersAux] at h
    cases h1 : env.newRuleProvider (defaultTag o.tag i) { o with tag := defaultTag o.tag i } with
    | error e => simp only [h1] at h; cases h
    | ok impl =>
      simp only [h1] at h
      cases h2 : impl.formatRule (if dns.rules = [] then none else some dns.rules)
          (if ro.rules = [] then none else some ro.rules) with
      | error e => simp only [h2] at h; cases h
      | ok nr =>
        obtain ⟨newDNS, newRoute⟩ := nr
        simp only [h2] at h
        cases h3 : buildRuleProvidersAux env (i + 1)
            (if ro.rules = [] then ro else { rules := newRoute })
            (if dns.rules = [] then dns else { rules := newDNS }) rest with
        | error e => simp only [h3] at h; cases h
        | ok x =>
          obtain ⟨rps2, ro2, dns2, tr2⟩ := x
          simp only [h3] at h
          cases h
          intro ev hev
          rcases List.mem_cons.1 hev with rfl | hev
          · trivial
          rcases List.mem_cons.1 hev with rfl | hev
          · trivial
          exact ih _ _ _ _ _ _ _ h3 ev hev

theorem buildInboundsAux_benign (env : Env) :
    ∀ (l : List InboundOptions) (k : Nat) (ins : List Inbound) (tr : List NewEv),
      buildInboundsAux env k l = .ok (ins, tr) → ∀ ev ∈ tr, ev.benign := by
  intro l
  induction l with
  | nil =>
    intro k ins tr h
    simp [buildInboundsAux] at h
    simp [h.2]
  | cons o rest ih =>
    intro k ins tr h
    simp only [buildInboundsAux] at h
    cases h1 : env.newInbound o with
    | error e => simp only [h1] at h; cases h
    | ok inb =>
      simp only [h1] at h
      cases h2 : buildInboundsAux env (k + 1) rest with
      | error e => simp only [h2] at h; cases h
      | ok x =>
        obtain ⟨ins2, tr2⟩ := x
        simp only [h2] at h
        cases h
        intro ev hev
        rcases List.mem_cons.1 hev with rfl | hev
        · trivial
        exact ih _ _ _ h2 ev hev

theorem buildOutboundsAux_benign (env : Env) :
    ∀ (l : List OutboundOptions) (k : Nat) (outs : List Outbound) (tr : List NewEv),
      buildOutboundsAux env k l = .ok (outs, tr) → ∀ ev ∈ tr, ev.benign := by
  intro l
  induction l with
  | nil =>
    intro k outs tr h
    simp [buildOutboundsAux] at h
    simp [h.2]
  | cons o rest ih =>
    intro k outs tr h
    simp only [buildOutboundsAux] at h
    cases h1 : env.newOutbound (defaultTag o.tag k) o with
    | error e => simp only [h1] at h; cases h
    | ok out =>
      simp only [h1] at h
      cases h2 : buildOutboundsAux env (k + 1) rest with
      | error e => simp only [h2] at h; cases h
      | ok x =>
        obtain ⟨outs2, tr2⟩ := x
        simp only [h2] at h
        cases h
        intro ev hev
        rcases List.mem_cons.1 hev with rfl | hev
        · trivial
        exact ih _ _ _ h2 ev hev

theorem buildProviderOutboundsAux_benign (env : Env) (ppTag : String) :
    ∀ (l : List OutboundOptions) (j : Nat) (outs : List Outbound) (tr : List NewEv),
      buildProviderOutboundsAux env ppTag j l = .ok (outs, tr) → ∀ ev ∈ tr, ev.benign := by
  intro l
  induction l with
  | nil =>
    intro j outs tr h
    simp [buildProviderOutboundsAux] at h
    simp [h.2]
  | cons o rest ih =>
    intro j outs tr h
    simp only [buildProviderOutboundsAux] at h
    cases h1 : env.newOutbound o.tag o with
    | error e => simp only [h1] at h; cases h
    | ok out =>
      simp only [h1] at h
      cases h2 : buildProviderOutboundsAux env ppTag (j + 1) rest with
      | error e => simp only [h2] at h; cases h
      | ok x =>
        obtain ⟨outs2, tr2⟩ := x
        simp only [h2] at h
        cases h
        intro ev hev
        rcases List.mem_cons.1 hev with rfl | hev
        · trivial
        exact ih _ _ _ h2 ev hev

theorem buildProxyProvidersAux_benign (env : Env) :
    ∀ (l : List ProxyProviderOptions) (i : Nat) (pps : List ProxyProvider)
      (pouts : List Outbound) (tr : List NewEv),
      buildProxyProvidersAux env i l = .ok (pps, pouts, tr) → ∀ ev ∈ tr, ev.benign := by
  intro l
  induction l with
  | nil =>
    intro i pps pouts tr h
    simp [buildProxyProvidersAux] at h
    simp [h.2.2]
  | cons o rest ih =>
    intro i pps pouts tr h
    simp only [buildProxyProvidersAux] at h
    cases h1 : env.newProxyProvider (defaultTag o.tag i) { o with tag := defaultTag o.tag i } with
    | error e => simp only [h1] at h; cases h
    | ok impl =>
      simp only [h1] at h
      cases h2 : impl.startGetOutbounds with
      | error e => simp only [h2] at h; cases h
      | ok oopts =>
        simp only [h2] at h
        cases h3 : buildProviderOutboundsAux env impl.pp.tag 0 oopts with
        | error e => simp only [h3] at h; cases h
        | ok x =>
          obtain ⟨outs1, tr1⟩ := x
          simp only [h3] at h
          cases h4 : buildProxyProvidersAux env (i + 1) rest with
          | error e => simp only [h4] at h; cases h
          | ok y =>
            obtain ⟨pps2, outs2, tr2⟩ := y
            simp only [h4] at h
            cases h
            intro ev hev
            rcases List.mem_cons.1 hev with rfl | hev
            · trivial
            rcases List.mem_append.1 hev with hev | hev
            · exact buildProviderOutboundsAux_benign env impl.pp.tag oopts 0 outs1 tr1 h3 ev hev
            · exact ih _ _ _ _ h4 ev hev

theorem setRouter_benign (rps : List RuleProvider) :
    ∀ ev ∈ rps.map (fun rp => NewEv.setRouter rp.tag), ev.benign := by
  intro ev hev
  obtain ⟨rp, _, rfl⟩ := List.mem_map.1 hev
  trivial

theorem exceptToOption_ok (a : α) : (Except.ok a : Except Err α).toOption = some a := rfl

/-- The outbounds built by the static outbound loop agree with the
reference definition written from the spec. -/
theorem buildOutboundsAux_spec (env : Env) :
    ∀ (l : List OutboundOptions) (k : Nat) (outs : List Outbound) (tr : List NewEv),
      buildOutboundsAux env k l = .ok (outs, tr) →
      optTraverse (fun p => (env.newOutbound (defaultTag p.2.tag p.1) p.2).toOption)
        (idxFrom k l) = some outs := by
  intro l
  induction l with
  | nil =>
    intro k outs tr h
    simp [buildOutboundsAux] at h
    simp [h.1, idxFrom, optTraverse]
  | cons o rest ih =>
    intro k outs tr h
    simp only [buildOutboundsAux] at h
    cases h1 : env.newOutbound (defaultTag o.tag k) o with
    | error e => simp only [h1] at h; cases h
    | ok out =>
      simp only [h1] at h
      cases h2 : buildOutboundsAux env (k + 1) rest with
      | error e => simp only [h2] at h; cases h
      | ok x =>
        obtain ⟨outs2, tr2⟩ := x
        simp only [h2] at h
        cases h
        simp only [idxFrom, optTraverse, h1, exceptToOption_ok, ih _ _ _ h2]
        rfl

/-- The outbounds built from one provider's returned definitions
agree with the reference definition written from the spec. -/
theorem buildProviderOutboundsAux_spec (env : Env) (ppTag : String) :
    ∀ (l : List OutboundOptions) (j : Nat) (outs : List Outbound) (tr : List NewEv),
      buildProviderOutboundsAux env ppTag j l = .ok (outs, tr) →
      optTraverse (fun o => (env.newOutbound o.tag o).toOption) l = some outs := by
  intro l
  induction l with
  | nil =>
    intro j outs tr h
    simp [buildProviderOutboundsAux] at h
    simp [h.1, optTraverse]
  | cons o rest ih =>
    intro j outs tr h
    simp only [buildProviderOutboundsAux] at h
    cases h1 : env.newOutbound o.tag o with
    | error e => simp only [h1] at h; cases h
    | ok out =>
      simp only [h1] at h
      cases h2 : buildProviderOutboundsAux env ppTag (j + 1) rest with
      | error e => simp only [h2] at h; cases h
      | ok x =>
        obtain ⟨outs2, tr2⟩ := x
        simp only [h2] at h
        cases h
        simp only [optTraverse, h1, exceptToOption_ok, ih _ _ _ h2]
        rfl

/-- The provider-supplied outbounds built by the proxy provider loop
agree with the reference definition written from the spec. -/
theorem buildProxyProvidersAux_spec (env : Env) :
    ∀ (l : List ProxyProviderOptions) (i : Nat) (pps : List ProxyProvider)
      (pouts : List Outbound) (tr : List NewEv),
      buildProxyProvidersAux env i l = .ok (pps, pouts, tr) →
      (optTraverse
          (fun p =>
            match env.newProxyProvider (defaultTag p.2.tag p.1)
                { p.2 with tag := defaultTag p.2.tag p.1 } with
            | .error _ => none
            | .ok impl =>
              match impl.startGetOutbounds with
              | .error _ => none
              | .ok oopts => optTraverse (fun o => (env.newOutbound o.tag o).toOption) oopts)
          (idxFrom i l)).map List.flatten = some pouts := by
  intro l
  induction l with
  | nil =>
    intro i pps pouts tr h
    simp [buildProxyProvidersAux] at h
    simp [h.2.1, idxFrom, optTraverse]
  | cons o rest ih =>
    intro i pps pouts tr h
    simp only [buildProxyProvidersAux] at h
    cases h1 : env.newProxyProvider (defaultTag o.tag i) { o with tag := defaultTag o.tag i } with
    | error e => simp only [h1] at h; cases h
    | ok impl =>
      simp only [h1] at h
      cases h2 : impl.startGetOutbounds with
      | error e => simp only [h2] at h; cases h
      | ok oopts =>
        simp only [h2] at h
        cases h3 : buildProviderOutboundsAux env impl.pp.tag 0 oopts with
        | error e => simp only [h3] at h; cases h
        | ok x =>
          obtain ⟨outs1, tr1⟩ := x
          simp only [h3] at h
          cases h4 : buildProxyProvidersAux env (i + 1) rest with
          | error e => simp only [h4] at h; cases h
          | ok y =>
            obtain ⟨pps2, outs2, tr2⟩ := y
            simp only [h4] at h
            cases h
            have hinner := buildProviderOutboundsAux_spec env impl.pp.tag oopts 0 outs1 tr1 h3
            have hrec := ih _ _ _ _ h4
            simp only [idxFrom, optTraverse, h1, h2, hinner]
            cases hopt : optTraverse
                (fun p =>
                  match env.newProxyProvider (defaultTag p.2.tag p.1)
                      { p.2 with tag := defaultTag p.2.tag p.1 } with
                  | .error _ => none
                  | .ok impl =>
                    match impl.startGetOutbounds with
                    | .error _ => none
                    | .ok oopts =>
                      optTraverse (fun o => (env.newOutbound o.tag o).toOption) oopts)
                (idxFrom (i + 1) rest) with
            | none => rw [hopt] at hrec; cases hrec
            | some L =>
              rw [hopt] at hrec
              simp only [Option.map_some'] at hrec
              cases hrec
              simp

theorem iterIdx_snd_mem (l : List α) (π : List Nat) :
    ∀ x ∈ iterIdx l π, x.2 ∈ l := by
  intro x hx
  have hm : x.2 ∈ (iterIdx l π).map Prod.snd := List.mem_map_of_mem Prod.snd hx
  rw [iterIdx_map_snd] at hm
  obtain ⟨i, _, hi⟩ := List.mem_filterMap.1 hm
  exact List.get?_mem hi

theorem idxFrom_snd_mem (k : Nat) (l : List α) :
    ∀ x ∈ idxFrom k l, x.2 ∈ l := by
  intro x hx
  have hm : x.2 ∈ (idxFrom k l).map Prod.snd := List.mem_map_of_mem Prod.snd hx
  rwa [idxFrom_map_snd] at hm

/-- Under `noClosePanics`, every item of `closeItems` returns,
whatever the map iteration orders are. -/
theorem closeItems_returns (s : Box) (πpost πpre : List Nat)
    (hnp : s.noClosePanics = true) :
    ∀ it ∈ s.closeItems πpost πpre, it.2.2.returns = true := by
  simp only [Box.noClosePanics, Bool.and_eq_true, List.all_eq_true] at hnp
  obtain ⟨⟨⟨⟨⟨⟨⟨hpost, hrp⟩, hpp⟩, hin⟩, hout⟩, hrt⟩, hpre⟩, hlf⟩ := hnp
  intro it hit
  unfold Box.closeItems at hit
  simp only [List.mem_append, List.mem_map] at hit
  rcases hit with ((((((h | h) | h) | h) | h) | h) | h) | h
  · obtain ⟨x, hx, rfl⟩ := h
    exact hpost x.2 (iterIdx_snd_mem _ _ x hx)
  · obtain ⟨x, hx, rfl⟩ := h
    exact hrp x.2 (idxFrom_snd_mem _ _ x hx)
  · obtain ⟨x, hx, rfl⟩ := h
    exact hpp x.2 (idxFrom_snd_mem _ _ x hx)
  · obtain ⟨x, hx, rfl⟩ := h
    exact hin x.2 (idxFrom_snd_mem _ _ x hx)
  · obtain ⟨x, hx, rfl⟩ := h
    exact hout x.2 (idxFrom_snd_mem _ _ x hx)
  · simp only [List.mem_singleton] at h
    subst h
    exact hrt
  · obtain ⟨x, hx, rfl⟩ := h
    exact hpre x.2 (iterIdx_snd_mem _ _ x hx)
  · simp only [List.mem_singleton] at h
    subst h
    exact hlf

/-- A first `Close` call with no panicking component returns and its
trace is the projection of `closeItems`, under any map iteration
orders. -/
theorem close_ret_trace (s : Box) (πpost πpre : List Nat)
    (hdone : s.done = false) (hnp : s.noClosePanics = true) :
    ∃ e, s.Close πpost πpre =
      .ret e { s with done := true }
        ((s.closeItems πpost πpre).map fun it => (it.1, it.2.1)) := by
  have hne : ∀ it ∈ s.closeItems πpost πpre, ∀ v, it.2.2 ≠ COut.panics v := by
    intro it hit v hv
    have := closeItems_returns s πpost πpre hnp it hit
    rw [hv] at this
    simp [COut.returns] at this
  obtain ⟨e, he⟩ := closeSeq_no_panic none (s.closeItems πpost πpre) hne
  exact ⟨e, by simp only [Box.Close, hdone, Bool.false_eq_true, if_false, he]⟩

theorem idxFrom_append (k : Nat) (l1 l2 : List α) :
    idxFrom k (l1 ++ l2) = idxFrom k l1 ++ idxFrom (k + l1.length) l2 := by
  induction l1 generalizing k with
  | nil => simp [idxFrom]
  | cons a l ih =>
    simp [idxFrom, ih (k + 1)]
    rw [show k + 1 + l.length = k + (l.length + 1) by omega]

/-- The outbound at index `i` is closed under the index-based label,
whatever the map iteration orders. -/
theorem closeItems_mem_outbound (s : Box) (πpost πpre : List Nat) :
    ∀ p ∈ idxFrom 0 s.outbounds,
      (Subsys.outbound p.1, closeOutboundLabel p.2.typ p.1, p.2.closeB)
        ∈ s.closeItems πpost πpre := by
  intro p hp
  unfold Box.closeItems
  simp only [List.mem_append, List.mem_map]
  exact Or.inl (Or.inl (Or.inl (Or.inr ⟨p, hp, rfl⟩)))

/-- C8: the outbound list `New` records as the `Router.Initialize`
argument is exactly the static outbounds (index order, defaulted
tags) followed by every proxy provider's returned outbound
definitions (providers in index order, each list in returned order,
each constructed under its own tag), as described by the reference
definition `specInitializeOutbounds`; the record is unique in the
trace. -/
theorem c8_initialize_outbounds (env : Env) (o : Options) (b : Box) (tr : List NewEv)
    (h : New env o = .ok b tr) :
    ∃ L, tr.filterMap NewEv.initArg = [L] ∧ specInitializeOutbounds env o = some L := by
  obtain ⟨rps, ro, dns, tr1, router, ins, tr3, souts, tr4, pps, pouts, tr5, outs2, trD, pre2,
    h0, h1, h2, h3, h4, h5, hb, htr, hor⟩ := New_ok_parts env o b tr h
  refine ⟨souts ++ pouts, ?_, ?_⟩
  · subst htr
    rw [List.filterMap_append, List.filterMap_append, List.filterMap_append,
      List.filterMap_append, List.filterMap_append, List.filterMap_append]
    rw [benign_initArg tr1 (buildRuleProvidersAux_benign env _ _ _ _ _ _ _ _ h1),
      benign_initArg _ (setRouter_benign rps),
      benign_initArg tr3 (buildInboundsAux_benign env _ _ _ _ h3),
      benign_initArg tr4 (buildOutboundsAux_benign env _ _ _ _ h4),
      benign_initArg tr5 (buildProxyProvidersAux_benign env _ _ _ _ _ h5)]
    have hD : trD.filterMap NewEv.initArg = [] := by
      rcases hor with ⟨_, _, rfl⟩ | ⟨_, dout, _, _, rfl⟩ <;> simp [NewEv.initArg]
    rw [hD]
    simp [NewEv.initArg]
  · unfold specInitializeOutbounds
    rw [show specStaticOutbounds env o.outbounds = some souts from
        buildOutboundsAux_spec env o.outbounds 0 souts tr4 h4,
      show specProviderOutbounds env o.proxyProviders = some pouts from
        buildProxyProvidersAux_spec env o.proxyProviders 0 pps pouts tr5 h5]

/-- C7: the default-outbound factory is invoked at most once per
`New` run, and when the router requests it, exactly once — producing
the synthetic direct outbound tagged `default`, which is appended as
the last element of the final outbound list of the Box and therefore
receives a close (under its index-based label) during the first
teardown. -/
theorem c7_default_outbound (env : Env) (o : Options) (b : Box) (tr : List NewEv)
    (henv : env.Conformant) (h : New env o = .ok b tr) :
    factoryCalls tr ≤ 1 ∧
    (env.routerNeedsDefault = true →
      factoryCalls tr = 1 ∧
      ∃ dout, env.newOutbound "direct" directDefaultOptions = .ok dout ∧
        dout.tag = "default" ∧ dout.typ = "direct" ∧
        b.outbounds.getLast? = some dout ∧
        ∀ πpost πpre, b.noClosePanics = true →
          ∃ e, b.Close πpost πpre = .ret e { b with done := true }
              ((b.closeItems πpost πpre).map fun it => (it.1, it.2.1)) ∧
            (Subsys.outbound (b.outbounds.length - 1),
              closeOutboundLabel dout.typ (b.outbounds.length - 1))
              ∈ (b.Close πpost πpre).trace) := by
  obtain ⟨rps, ro, dns, tr1, router, ins, tr3, souts, tr4, pps, pouts, tr5, outs2, trD, pre2,
    h0, h1, h2, h3, h4, h5, hb, htr, hor⟩ := New_ok_parts env o b tr h
  have hcount : ∀ L, factoryCalls (tr1 ++ rps.map (fun rp => NewEv.setRouter rp.tag) ++ tr3
      ++ tr4 ++ tr5 ++ [NewEv.initializeCall L] ++ trD) = factoryCalls trD := by
    intro L
    unfold factoryCalls
    rw [List.countP_append, List.countP_append, List.countP_append, List.countP_append,
      List.countP_append, List.countP_append]
    have z1 := benign_factoryCalls tr1 (buildRuleProvidersAux_benign env _ _ _ _ _ _ _ _ h1)
    have z2 := benign_factoryCalls _ (setRouter_benign rps)
    have z3 := benign_factoryCalls tr3 (buildInboundsAux_benign env _ _ _ _ h3)
    have z4 := benign_factoryCalls tr4 (buildOutboundsAux_benign env _ _ _ _ h4)
    have z5 := benign_factoryCalls tr5 (buildProxyProvidersAux_benign env _ _ _ _ _ h5)
    unfold factoryCalls at z1 z2 z3 z4 z5
    rw [z1, z2, z3, z4, z5]
    simp
  constructor
  · subst htr
    rw [hcount]
    rcases hor with ⟨_, _, rfl⟩ | ⟨_, dout, _, _, rfl⟩ <;> simp [factoryCalls]
  · intro hrd
    rcases hor with ⟨hf, _, _⟩ | ⟨_, dout, hdok, houts, htrD⟩
    · rw [hrd] at hf; cases hf
    refine ⟨?_, dout, hdok, ?_, ?_, ?_, ?_⟩
    · subst htr
      rw [hcount, htrD]
      simp [factoryCalls]
    · rw [(henv.outbound_tag _ _ _ hdok).1]
      rfl
    · exact (henv.outbound_tag _ _ _ hdok).2
    · rw [hb]
      simp only
      rw [houts, List.getLast?_concat]
    · intro πpost πpre hnp
      have hdone : b.done = false := by rw [hb]
      obtain ⟨e, he⟩ := close_ret_trace b πpost πpre hdone hnp
      refine ⟨e, he, ?_⟩
      rw [he]
      simp only [CloseOutcome.trace]
      have hidx : (souts.length + pouts.length, dout) ∈ idxFrom 0 b.outbounds := by
        rw [hb]
        simp only
        rw [houts, idxFrom_append]
        refine List.mem_append_right _ ?_
        simp [idxFrom, List.length_append]
      have hlen : b.outbounds.length - 1 = souts.length + pouts.length := by
        rw [hb]
        simp only
        rw [houts]
        simp [List.length_append]
      have hmem := closeItems_mem_outbound b πpost πpre (souts.length + pouts.length, dout) hidx
      rw [hlen]
      exact List.mem_map_of_mem (fun it => (it.1, it.2.1)) hmem

/-- C10: the default-outbound factory closure has no error result —
when constructing the synthetic direct outbound fails, the factory
panics with the construction error via `common.Must` instead of
returning it, and no `New` run in which the router requests the
default outbound can then succeed. -/
theorem c10_factory_panics_on_error (env : Env) (e : Err)
    (h : env.newOutbound "direct" directDefaultOptions = .error e) :
    defaultOutboundFactory env = .panics e ∧
    (env.routerNeedsDefault = true → ∀ o b tr, New env o ≠ .ok b tr) := by
  constructor
  · unfold defaultOutboundFactory
    rw [h]
  · intro hrd o b tr hok
    obtain ⟨rps, ro, dns, tr1, router, ins, tr3, souts, tr4, pps, pouts, tr5, outs2, trD, pre2,
      h0, h1, h2, h3, h4, h5, hb, htr, hor⟩ := New_ok_parts env o b tr hok
    rcases hor with ⟨hf, _, _⟩ | ⟨_, dout, hdok, _, _⟩
    · rw [hrd] at hf; cases hf
    · rw [h] at hdok; cases hdok

/-- C8 witness: at the example environment and configuration — one
static outbound, two providers returning two outbound definitions
each — the recorded `Initialize` argument is the five distinctly
tagged outbounds of `LA`. -/
theorem c8_initialize_outbounds_witness :
    (∃ L, trA.filterMap NewEv.initArg = [L] ∧ specInitializeOutbounds cenvA oA = some L) ∧
    specInitializeOutbounds cenvA oA = some LA ∧ (LA.map Outbound.tag).Nodup :=
  ⟨c8_initialize_outbounds cenvA oA bA trA (by rfl), by decide, by decide⟩

/-- C7 witness: the default-outbound theorem instantiated at the
example environment and configuration. -/
theorem c7_default_outbound_witness :
    factoryCalls trA ≤ 1 ∧
    (cenvA.routerNeedsDefault = true →
      factoryCalls trA = 1 ∧
      ∃ dout, cenvA.newOutbound "direct" directDefaultOptions = .ok dout ∧
        dout.tag = "default" ∧ dout.typ = "direct" ∧
        bA.outbounds.getLast? = some dout ∧
        ∀ πpost πpre, bA.noClosePanics = true →
          ∃ e, bA.Close πpost πpre = .ret e { bA with done := true }
              ((bA.closeItems πpost πpre).map fun it => (it.1, it.2.1)) ∧
            (Subsys.outbound (bA.outbounds.length - 1),
              closeOutboundLabel dout.typ (bA.outbounds.length - 1))
              ∈ (bA.Close πpost πpre).trace) :=
  c7_default_outbound cenvA oA bA trA cenvA_conformant (by rfl)

/-- C10 witness: at an environment whose direct-outbound constructor
fails, the factory panics with that error and no `New` run requesting
the default outbound succeeds. -/
theorem c10_factory_panics_witness :
    defaultOutboundFactory cenvB = .panics (Err.msg "boom") ∧
    (cenvB.routerNeedsDefault = true → ∀ o b tr, New cenvB o ≠ .ok b tr) :=
  c10_factory_panics_on_error cenvB (Err.msg "boom") (by rfl)

end SingBox
